import Mathlib

/-!
Shallow embedding of the zoneinfo line parser (src/line.rs of the
zoneinfo-parse repository) together with a model of the calendar
collaborator (the external datetime crate) used by the resolution
functions.  Strings are modelled as lists of characters; a Rust
`Result<T, Error>` together with the possibility of a process abort
(a `panic!`/`unreachable!`/`unwrap` failure) is modelled by `PResult`.

The regular expressions of line.rs (RULE_LINE, ZONE_LINE,
CONTINUATION_LINE, LINK_LINE, EMPTY_LINE, DAY_FIELD, HM_FIELD,
HMS_FIELD) are embedded as total Lean functions computing exactly the
captures the Rust regex engine produces on a given line: each regex is
anchored at the start, splits the input into maximal runs of
non-whitespace characters, and (apart from EMPTY_LINE) is not anchored
at the end, so trailing tokens are ignored.  The character classes of
the regex crate (`\s`, `\d`, `\w`) are Unicode classes; they are
modelled here by explicit code-point range tables taken from the
Unicode 14.0 character database, the version shipped with current
Unicode class data (the tables bundled with the regex dependency of
the crate may lag by a few Unicode versions, which can only shift
membership of code points assigned after that version).
-/

namespace Zoneinfo

/-- Result of running a fallible Rust function: `ok` models `Ok`,
`fail` models `Err(Error::Fail)` (the only error value of line.rs),
and `abort` models a process abort (`panic!`, `unreachable!`, a failed
`unwrap`/`expect`, or an arithmetic overflow abort). -/
inductive PResult (α : Type) where
  | ok : α → PResult α
  | fail : PResult α
  | abort : PResult α
deriving DecidableEq, Repr

/-- Sequencing of fallible computations: models Rust's `try!` and the
propagation of panics. -/
def PResult.bind {α β : Type} : PResult α → (α → PResult β) → PResult β
  | .ok a, f => f a
  | .fail, _ => .fail
  | .abort, _ => .abort

instance : Monad PResult where
  pure := PResult.ok
  bind := PResult.bind

/-- Whitespace class of the regex `\s` (Unicode White_Space). -/
def isWs (c : Char) : Bool :=
  c = ' ' ∨ c = '\t' ∨ c = '\n' ∨ c = '\r' ∨ c = '\x0b' ∨ c = '\x0c' ∨
  c = '\u0085' ∨ c = '\u00A0' ∨ c = '\u1680' ∨
  ('\u2000' ≤ c ∧ c ≤ '\u200A') ∨ c = '\u2028' ∨ c = '\u2029' ∨
  c = '\u202F' ∨ c = '\u205F' ∨ c = '\u3000'

/-- Membership of a code point in a list of inclusive code-point
ranges. -/
def inRanges (rs : List (Nat × Nat)) (n : Nat) : Bool :=
  rs.any (fun p => p.1 ≤ n ∧ n ≤ p.2)

/-- Non-ASCII code points of the Unicode general category Nd (decimal
digits), Unicode 14.0. -/
def ndTable : List (Nat × Nat) := [
  (0x660, 0x669), (0x6F0, 0x6F9), (0x7C0, 0x7C9), (0x966, 0x96F), (0x9E6, 0x9EF), (0xA66, 0xA6F), (0xAE6, 0xAEF),
  (0xB66, 0xB6F), (0xBE6, 0xBEF), (0xC66, 0xC6F), (0xCE6, 0xCEF), (0xD66, 0xD6F), (0xDE6, 0xDEF), (0xE50, 0xE59),
  (0xED0, 0xED9), (0xF20, 0xF29), (0x1040, 0x1049), (0x1090, 0x1099), (0x17E0, 0x17E9), (0x1810, 0x1819), (0x1946, 0x194F),
  (0x19D0, 0x19D9), (0x1A80, 0x1A89), (0x1A90, 0x1A99), (0x1B50, 0x1B59), (0x1BB0, 0x1BB9), (0x1C40, 0x1C49), (0x1C50, 0x1C59),
  (0xA620, 0xA629), (0xA8D0, 0xA8D9), (0xA900, 0xA909), (0xA9D0, 0xA9D9), (0xA9F0, 0xA9F9), (0xAA50, 0xAA59), (0xABF0, 0xABF9),
  (0xFF10, 0xFF19), (0x104A0, 0x104A9), (0x10D30, 0x10D39), (0x11066, 0x1106F), (0x110F0, 0x110F9), (0x11136, 0x1113F), (0x111D0, 0x111D9),
  (0x112F0, 0x112F9), (0x11450, 0x11459), (0x114D0, 0x114D9), (0x11650, 0x11659), (0x116C0, 0x116C9), (0x11730, 0x11739), (0x118E0, 0x118E9),
  (0x11950, 0x11959), (0x11C50, 0x11C59), (0x11D50, 0x11D59), (0x11DA0, 0x11DA9), (0x16A60, 0x16A69), (0x16AC0, 0x16AC9), (0x16B50, 0x16B59),
  (0x1D7CE, 0x1D7FF), (0x1E140, 0x1E149), (0x1E2F0, 0x1E2F9), (0x1E950, 0x1E959), (0x1FBF0, 0x1FBF9)]

/-- Non-ASCII code points of the Unicode general categories L (letters)
and Nl (letter numbers), together with the circled letters
U+24B6..U+24E9, Unicode 14.0. -/
def alphaTable : List (Nat × Nat) := [
  (0xAA, 0xAA), (0xB5, 0xB5), (0xBA, 0xBA), (0xC0, 0xD6), (0xD8, 0xF6), (0xF8, 0x2C1), (0x2C6, 0x2D1),
  (0x2E0, 0x2E4), (0x2EC, 0x2EC), (0x2EE, 0x2EE), (0x370, 0x374), (0x376, 0x377), (0x37A, 0x37D), (0x37F, 0x37F),
  (0x386, 0x386), (0x388, 0x38A), (0x38C, 0x38C), (0x38E, 0x3A1), (0x3A3, 0x3F5), (0x3F7, 0x481), (0x48A, 0x52F),
  (0x531, 0x556), (0x559, 0x559), (0x560, 0x588), (0x5D0, 0x5EA), (0x5EF, 0x5F2), (0x620, 0x64A), (0x66E, 0x66F),
  (0x671, 0x6D3), (0x6D5, 0x6D5), (0x6E5, 0x6E6), (0x6EE, 0x6EF), (0x6FA, 0x6FC), (0x6FF, 0x6FF), (0x710, 0x710),
  (0x712, 0x72F), (0x74D, 0x7A5), (0x7B1, 0x7B1), (0x7CA, 0x7EA), (0x7F4, 0x7F5), (0x7FA, 0x7FA), (0x800, 0x815),
  (0x81A, 0x81A), (0x824, 0x824), (0x828, 0x828), (0x840, 0x858), (0x860, 0x86A), (0x870, 0x887), (0x889, 0x88E),
  (0x8A0, 0x8C9), (0x904, 0x939), (0x93D, 0x93D), (0x950, 0x950), (0x958, 0x961), (0x971, 0x980), (0x985, 0x98C),
  (0x98F, 0x990), (0x993, 0x9A8), (0x9AA, 0x9B0), (0x9B2, 0x9B2), (0x9B6, 0x9B9), (0x9BD, 0x9BD), (0x9CE, 0x9CE),
  (0x9DC, 0x9DD), (0x9DF, 0x9E1), (0x9F0, 0x9F1), (0x9FC, 0x9FC), (0xA05, 0xA0A), (0xA0F, 0xA10), (0xA13, 0xA28),
  (0xA2A, 0xA30), (0xA32, 0xA33), (0xA35, 0xA36), (0xA38, 0xA39), (0xA59, 0xA5C), (0xA5E, 0xA5E), (0xA72, 0xA74),
  (0xA85, 0xA8D), (0xA8F, 0xA91), (0xA93, 0xAA8), (0xAAA, 0xAB0), (0xAB2, 0xAB3), (0xAB5, 0xAB9), (0xABD, 0xABD),
  (0xAD0, 0xAD0), (0xAE0, 0xAE1), (0xAF9, 0xAF9), (0xB05, 0xB0C), (0xB0F, 0xB10), (0xB13, 0xB28), (0xB2A, 0xB30),
  (0xB32, 0xB33), (0xB35, 0xB39), (0xB3D, 0xB3D), (0xB5C, 0xB5D), (0xB5F, 0xB61), (0xB71, 0xB71), (0xB83, 0xB83),
  (0xB85, 0xB8A), (0xB8E, 0xB90), (0xB92, 0xB95), (0xB99, 0xB9A), (0xB9C, 0xB9C), (0xB9E, 0xB9F), (0xBA3, 0xBA4),
  (0xBA8, 0xBAA), (0xBAE, 0xBB9), (0xBD0, 0xBD0), (0xC05, 0xC0C), (0xC0E, 0xC10), (0xC12, 0xC28), (0xC2A, 0xC39),
  (0xC3D, 0xC3D), (0xC58, 0xC5A), (0xC5D, 0xC5D), (0xC60, 0xC61), (0xC80, 0xC80), (0xC85, 0xC8C), (0xC8E, 0xC90),
  (0xC92, 0xCA8), (0xCAA, 0xCB3), (0xCB5, 0xCB9), (0xCBD, 0xCBD), (0xCDD, 0xCDE), (0xCE0, 0xCE1), (0xCF1, 0xCF2),
  (0xD04, 0xD0C), (0xD0E, 0xD10), (0xD12, 0xD3A), (0xD3D, 0xD3D), (0xD4E, 0xD4E), (0xD54, 0xD56), (0xD5F, 0xD61),
  (0xD7A, 0xD7F), (0xD85, 0xD96), (0xD9A, 0xDB1), (0xDB3, 0xDBB), (0xDBD, 0xDBD), (0xDC0, 0xDC6), (0xE01, 0xE30),
  (0xE32, 0xE33), (0xE40, 0xE46), (0xE81, 0xE82), (0xE84, 0xE84), (0xE86, 0xE8A), (0xE8C, 0xEA3), (0xEA5, 0xEA5),
  (0xEA7, 0xEB0), (0xEB2, 0xEB3), (0xEBD, 0xEBD), (0xEC0, 0xEC4), (0xEC6, 0xEC6), (0xEDC, 0xEDF), (0xF00, 0xF00),
  (0xF40, 0xF47), (0xF49, 0xF6C), (0xF88, 0xF8C), (0x1000, 0x102A), (0x103F, 0x103F), (0x1050, 0x1055), (0x105A, 0x105D),
  (0x1061, 0x1061), (0x1065, 0x1066), (0x106E, 0x1070), (0x1075, 0x1081), (0x108E, 0x108E), (0x10A0, 0x10C5), (0x10C7, 0x10C7),
  (0x10CD, 0x10CD), (0x10D0, 0x10FA), (0x10FC, 0x1248), (0x124A, 0x124D), (0x1250, 0x1256), (0x1258, 0x1258), (0x125A, 0x125D),
  (0x1260, 0x1288), (0x128A, 0x128D), (0x1290, 0x12B0), (0x12B2, 0x12B5), (0x12B8, 0x12BE), (0x12C0, 0x12C0), (0x12C2, 0x12C5),
  (0x12C8, 0x12D6), (0x12D8, 0x1310), (0x1312, 0x1315), (0x1318, 0x135A), (0x1380, 0x138F), (0x13A0, 0x13F5), (0x13F8, 0x13FD),
  (0x1401, 0x166C), (0x166F, 0x167F), (0x1681, 0x169A), (0x16A0, 0x16EA), (0x16EE, 0x16F8), (0x1700, 0x1711), (0x171F, 0x1731),
  (0x1740, 0x1751), (0x1760, 0x176C), (0x176E, 0x1770), (0x1780, 0x17B3), (0x17D7, 0x17D7), (0x17DC, 0x17DC), (0x1820, 0x1878),
  (0x1880, 0x1884), (0x1887, 0x18A8), (0x18AA, 0x18AA), (0x18B0, 0x18F5), (0x1900, 0x191E), (0x1950, 0x196D), (0x1970, 0x1974),
  (0x1980, 0x19AB), (0x19B0, 0x19C9), (0x1A00, 0x1A16), (0x1A20, 0x1A54), (0x1AA7, 0x1AA7), (0x1B05, 0x1B33), (0x1B45, 0x1B4C),
  (0x1B83, 0x1BA0), (0x1BAE, 0x1BAF), (0x1BBA, 0x1BE5), (0x1C00, 0x1C23), (0x1C4D, 0x1C4F), (0x1C5A, 0x1C7D), (0x1C80, 0x1C88),
  (0x1C90, 0x1CBA), (0x1CBD, 0x1CBF), (0x1CE9, 0x1CEC), (0x1CEE, 0x1CF3), (0x1CF5, 0x1CF6), (0x1CFA, 0x1CFA), (0x1D00, 0x1DBF),
  (0x1E00, 0x1F15), (0x1F18, 0x1F1D), (0x1F20, 0x1F45), (0x1F48, 0x1F4D), (0x1F50, 0x1F57), (0x1F59, 0x1F59), (0x1F5B, 0x1F5B),
  (0x1F5D, 0x1F5D), (0x1F5F, 0x1F7D), (0x1F80, 0x1FB4), (0x1FB6, 0x1FBC), (0x1FBE, 0x1FBE), (0x1FC2, 0x1FC4), (0x1FC6, 0x1FCC),
  (0x1FD0, 0x1FD3), (0x1FD6, 0x1FDB), (0x1FE0, 0x1FEC), (0x1FF2, 0x1FF4), (0x1FF6, 0x1FFC), (0x2071, 0x2071), (0x207F, 0x207F),
  (0x2090, 0x209C), (0x2102, 0x2102), (0x2107, 0x2107), (0x210A, 0x2113), (0x2115, 0x2115), (0x2119, 0x211D), (0x2124, 0x2124),
  (0x2126, 0x2126), (0x2128, 0x2128), (0x212A, 0x212D), (0x212F, 0x2139), (0x213C, 0x213F), (0x2145, 0x2149), (0x214E, 0x214E),
  (0x2160, 0x2188), (0x24B6, 0x24E9), (0x2C00, 0x2CE4), (0x2CEB, 0x2CEE), (0x2CF2, 0x2CF3), (0x2D00, 0x2D25), (0x2D27, 0x2D27),
  (0x2D2D, 0x2D2D), (0x2D30, 0x2D67), (0x2D6F, 0x2D6F), (0x2D80, 0x2D96), (0x2DA0, 0x2DA6), (0x2DA8, 0x2DAE), (0x2DB0, 0x2DB6),
  (0x2DB8, 0x2DBE), (0x2DC0, 0x2DC6), (0x2DC8, 0x2DCE), (0x2DD0, 0x2DD6), (0x2DD8, 0x2DDE), (0x2E2F, 0x2E2F), (0x3005, 0x3007),
  (0x3021, 0x3029), (0x3031, 0x3035), (0x3038, 0x303C), (0x3041, 0x3096), (0x309D, 0x309F), (0x30A1, 0x30FA), (0x30FC, 0x30FF),
  (0x3105, 0x312F), (0x3131, 0x318E), (0x31A0, 0x31BF), (0x31F0, 0x31FF), (0x3400, 0x4DBF), (0x4E00, 0xA48C), (0xA4D0, 0xA4FD),
  (0xA500, 0xA60C), (0xA610, 0xA61F), (0xA62A, 0xA62B), (0xA640, 0xA66E), (0xA67F, 0xA69D), (0xA6A0, 0xA6EF), (0xA717, 0xA71F),
  (0xA722, 0xA788), (0xA78B, 0xA7CA), (0xA7D0, 0xA7D1), (0xA7D3, 0xA7D3), (0xA7D5, 0xA7D9), (0xA7F2, 0xA801), (0xA803, 0xA805),
  (0xA807, 0xA80A), (0xA80C, 0xA822), (0xA840, 0xA873), (0xA882, 0xA8B3), (0xA8F2, 0xA8F7), (0xA8FB, 0xA8FB), (0xA8FD, 0xA8FE),
  (0xA90A, 0xA925), (0xA930, 0xA946), (0xA960, 0xA97C), (0xA984, 0xA9B2), (0xA9CF, 0xA9CF), (0xA9E0, 0xA9E4), (0xA9E6, 0xA9EF),
  (0xA9FA, 0xA9FE), (0xAA00, 0xAA28), (0xAA40, 0xAA42), (0xAA44, 0xAA4B), (0xAA60, 0xAA76), (0xAA7A, 0xAA7A), (0xAA7E, 0xAAAF),
  (0xAAB1, 0xAAB1), (0xAAB5, 0xAAB6), (0xAAB9, 0xAABD), (0xAAC0, 0xAAC0), (0xAAC2, 0xAAC2), (0xAADB, 0xAADD), (0xAAE0, 0xAAEA),
  (0xAAF2, 0xAAF4), (0xAB01, 0xAB06), (0xAB09, 0xAB0E), (0xAB11, 0xAB16), (0xAB20, 0xAB26), (0xAB28, 0xAB2E), (0xAB30, 0xAB5A),
  (0xAB5C, 0xAB69), (0xAB70, 0xABE2), (0xAC00, 0xD7A3), (0xD7B0, 0xD7C6), (0xD7CB, 0xD7FB), (0xF900, 0xFA6D), (0xFA70, 0xFAD9),
  (0xFB00, 0xFB06), (0xFB13, 0xFB17), (0xFB1D, 0xFB1D), (0xFB1F, 0xFB28), (0xFB2A, 0xFB36), (0xFB38, 0xFB3C), (0xFB3E, 0xFB3E),
  (0xFB40, 0xFB41), (0xFB43, 0xFB44), (0xFB46, 0xFBB1), (0xFBD3, 0xFD3D), (0xFD50, 0xFD8F), (0xFD92, 0xFDC7), (0xFDF0, 0xFDFB),
  (0xFE70, 0xFE74), (0xFE76, 0xFEFC), (0xFF21, 0xFF3A), (0xFF41, 0xFF5A), (0xFF66, 0xFFBE), (0xFFC2, 0xFFC7), (0xFFCA, 0xFFCF),
  (0xFFD2, 0xFFD7), (0xFFDA, 0xFFDC), (0x10000, 0x1000B), (0x1000D, 0x10026), (0x10028, 0x1003A), (0x1003C, 0x1003D), (0x1003F, 0x1004D),
  (0x10050, 0x1005D), (0x10080, 0x100FA), (0x10140, 0x10174), (0x10280, 0x1029C), (0x102A0, 0x102D0), (0x10300, 0x1031F), (0x1032D, 0x1034A),
  (0x10350, 0x10375), (0x10380, 0x1039D), (0x103A0, 0x103C3), (0x103C8, 0x103CF), (0x103D1, 0x103D5), (0x10400, 0x1049D), (0x104B0, 0x104D3),
  (0x104D8, 0x104FB), (0x10500, 0x10527), (0x10530, 0x10563), (0x10570, 0x1057A), (0x1057C, 0x1058A), (0x1058C, 0x10592), (0x10594, 0x10595),
  (0x10597, 0x105A1), (0x105A3, 0x105B1), (0x105B3, 0x105B9), (0x105BB, 0x105BC), (0x10600, 0x10736), (0x10740, 0x10755), (0x10760, 0x10767),
  (0x10780, 0x10785), (0x10787, 0x107B0), (0x107B2, 0x107BA), (0x10800, 0x10805), (0x10808, 0x10808), (0x1080A, 0x10835), (0x10837, 0x10838),
  (0x1083C, 0x1083C), (0x1083F, 0x10855), (0x10860, 0x10876), (0x10880, 0x1089E), (0x108E0, 0x108F2), (0x108F4, 0x108F5), (0x10900, 0x10915),
  (0x10920, 0x10939), (0x10980, 0x109B7), (0x109BE, 0x109BF), (0x10A00, 0x10A00), (0x10A10, 0x10A13), (0x10A15, 0x10A17), (0x10A19, 0x10A35),
  (0x10A60, 0x10A7C), (0x10A80, 0x10A9C), (0x10AC0, 0x10AC7), (0x10AC9, 0x10AE4), (0x10B00, 0x10B35), (0x10B40, 0x10B55), (0x10B60, 0x10B72),
  (0x10B80, 0x10B91), (0x10C00, 0x10C48), (0x10C80, 0x10CB2), (0x10CC0, 0x10CF2), (0x10D00, 0x10D23), (0x10E80, 0x10EA9), (0x10EB0, 0x10EB1),
  (0x10F00, 0x10F1C), (0x10F27, 0x10F27), (0x10F30, 0x10F45), (0x10F70, 0x10F81), (0x10FB0, 0x10FC4), (0x10FE0, 0x10FF6), (0x11003, 0x11037),
  (0x11071, 0x11072), (0x11075, 0x11075), (0x11083, 0x110AF), (0x110D0, 0x110E8), (0x11103, 0x11126), (0x11144, 0x11144), (0x11147, 0x11147),
  (0x11150, 0x11172), (0x11176, 0x11176), (0x11183, 0x111B2), (0x111C1, 0x111C4), (0x111DA, 0x111DA), (0x111DC, 0x111DC), (0x11200, 0x11211),
  (0x11213, 0x1122B), (0x11280, 0x11286), (0x11288, 0x11288), (0x1128A, 0x1128D), (0x1128F, 0x1129D), (0x1129F, 0x112A8), (0x112B0, 0x112DE),
  (0x11305, 0x1130C), (0x1130F, 0x11310), (0x11313, 0x11328), (0x1132A, 0x11330), (0x11332, 0x11333), (0x11335, 0x11339), (0x1133D, 0x1133D),
  (0x11350, 0x11350), (0x1135D, 0x11361), (0x11400, 0x11434), (0x11447, 0x1144A), (0x1145F, 0x11461), (0x11480, 0x114AF), (0x114C4, 0x114C5),
  (0x114C7, 0x114C7), (0x11580, 0x115AE), (0x115D8, 0x115DB), (0x11600, 0x1162F), (0x11644, 0x11644), (0x11680, 0x116AA), (0x116B8, 0x116B8),
  (0x11700, 0x1171A), (0x11740, 0x11746), (0x11800, 0x1182B), (0x118A0, 0x118DF), (0x118FF, 0x11906), (0x11909, 0x11909), (0x1190C, 0x11913),
  (0x11915, 0x11916), (0x11918, 0x1192F), (0x1193F, 0x1193F), (0x11941, 0x11941), (0x119A0, 0x119A7), (0x119AA, 0x119D0), (0x119E1, 0x119E1),
  (0x119E3, 0x119E3), (0x11A00, 0x11A00), (0x11A0B, 0x11A32), (0x11A3A, 0x11A3A), (0x11A50, 0x11A50), (0x11A5C, 0x11A89), (0x11A9D, 0x11A9D),
  (0x11AB0, 0x11AF8), (0x11C00, 0x11C08), (0x11C0A, 0x11C2E), (0x11C40, 0x11C40), (0x11C72, 0x11C8F), (0x11D00, 0x11D06), (0x11D08, 0x11D09),
  (0x11D0B, 0x11D30), (0x11D46, 0x11D46), (0x11D60, 0x11D65), (0x11D67, 0x11D68), (0x11D6A, 0x11D89), (0x11D98, 0x11D98), (0x11EE0, 0x11EF2),
  (0x11FB0, 0x11FB0), (0x12000, 0x12399), (0x12400, 0x1246E), (0x12480, 0x12543), (0x12F90, 0x12FF0), (0x13000, 0x1342E), (0x14400, 0x14646),
  (0x16800, 0x16A38), (0x16A40, 0x16A5E), (0x16A70, 0x16ABE), (0x16AD0, 0x16AED), (0x16B00, 0x16B2F), (0x16B40, 0x16B43), (0x16B63, 0x16B77),
  (0x16B7D, 0x16B8F), (0x16E40, 0x16E7F), (0x16F00, 0x16F4A), (0x16F50, 0x16F50), (0x16F93, 0x16F9F), (0x16FE0, 0x16FE1), (0x16FE3, 0x16FE3),
  (0x17000, 0x187F7), (0x18800, 0x18CD5), (0x18D00, 0x18D08), (0x1AFF0, 0x1AFF3), (0x1AFF5, 0x1AFFB), (0x1AFFD, 0x1AFFE), (0x1B000, 0x1B122),
  (0x1B150, 0x1B152), (0x1B164, 0x1B167), (0x1B170, 0x1B2FB), (0x1BC00, 0x1BC6A), (0x1BC70, 0x1BC7C), (0x1BC80, 0x1BC88), (0x1BC90, 0x1BC99),
  (0x1D400, 0x1D454), (0x1D456, 0x1D49C), (0x1D49E, 0x1D49F), (0x1D4A2, 0x1D4A2), (0x1D4A5, 0x1D4A6), (0x1D4A9, 0x1D4AC), (0x1D4AE, 0x1D4B9),
  (0x1D4BB, 0x1D4BB), (0x1D4BD, 0x1D4C3), (0x1D4C5, 0x1D505), (0x1D507, 0x1D50A), (0x1D50D, 0x1D514), (0x1D516, 0x1D51C), (0x1D51E, 0x1D539),
  (0x1D53B, 0x1D53E), (0x1D540, 0x1D544), (0x1D546, 0x1D546), (0x1D54A, 0x1D550), (0x1D552, 0x1D6A5), (0x1D6A8, 0x1D6C0), (0x1D6C2, 0x1D6DA),
  (0x1D6DC, 0x1D6FA), (0x1D6FC, 0x1D714), (0x1D716, 0x1D734), (0x1D736, 0x1D74E), (0x1D750, 0x1D76E), (0x1D770, 0x1D788), (0x1D78A, 0x1D7A8),
  (0x1D7AA, 0x1D7C2), (0x1D7C4, 0x1D7CB), (0x1DF00, 0x1DF1E), (0x1E100, 0x1E12C), (0x1E137, 0x1E13D), (0x1E14E, 0x1E14E), (0x1E290, 0x1E2AD),
  (0x1E2C0, 0x1E2EB), (0x1E7E0, 0x1E7E6), (0x1E7E8, 0x1E7EB), (0x1E7ED, 0x1E7EE), (0x1E7F0, 0x1E7FE), (0x1E800, 0x1E8C4), (0x1E900, 0x1E943),
  (0x1E94B, 0x1E94B), (0x1EE00, 0x1EE03), (0x1EE05, 0x1EE1F), (0x1EE21, 0x1EE22), (0x1EE24, 0x1EE24), (0x1EE27, 0x1EE27), (0x1EE29, 0x1EE32),
  (0x1EE34, 0x1EE37), (0x1EE39, 0x1EE39), (0x1EE3B, 0x1EE3B), (0x1EE42, 0x1EE42), (0x1EE47, 0x1EE47), (0x1EE49, 0x1EE49), (0x1EE4B, 0x1EE4B),
  (0x1EE4D, 0x1EE4F), (0x1EE51, 0x1EE52), (0x1EE54, 0x1EE54), (0x1EE57, 0x1EE57), (0x1EE59, 0x1EE59), (0x1EE5B, 0x1EE5B), (0x1EE5D, 0x1EE5D),
  (0x1EE5F, 0x1EE5F), (0x1EE61, 0x1EE62), (0x1EE64, 0x1EE64), (0x1EE67, 0x1EE6A), (0x1EE6C, 0x1EE72), (0x1EE74, 0x1EE77), (0x1EE79, 0x1EE7C),
  (0x1EE7E, 0x1EE7E), (0x1EE80, 0x1EE89), (0x1EE8B, 0x1EE9B), (0x1EEA1, 0x1EEA3), (0x1EEA5, 0x1EEA9), (0x1EEAB, 0x1EEBB), (0x20000, 0x2A6DF),
  (0x2A700, 0x2B738), (0x2B740, 0x2B81D), (0x2B820, 0x2CEA1), (0x2CEB0, 0x2EBE0), (0x2F800, 0x2FA1D), (0x30000, 0x3134A)]

/-- Non-ASCII code points of the Unicode general category M (combining
marks), Unicode 14.0. -/
def markTable : List (Nat × Nat) := [
  (0x300, 0x36F), (0x483, 0x489), (0x591, 0x5BD), (0x5BF, 0x5BF), (0x5C1, 0x5C2), (0x5C4, 0x5C5), (0x5C7, 0x5C7),
  (0x610, 0x61A), (0x64B, 0x65F), (0x670, 0x670), (0x6D6, 0x6DC), (0x6DF, 0x6E4), (0x6E7, 0x6E8), (0x6EA, 0x6ED),
  (0x711, 0x711), (0x730, 0x74A), (0x7A6, 0x7B0), (0x7EB, 0x7F3), (0x7FD, 0x7FD), (0x816, 0x819), (0x81B, 0x823),
  (0x825, 0x827), (0x829, 0x82D), (0x859, 0x85B), (0x898, 0x89F), (0x8CA, 0x8E1), (0x8E3, 0x903), (0x93A, 0x93C),
  (0x93E, 0x94F), (0x951, 0x957), (0x962, 0x963), (0x981, 0x983), (0x9BC, 0x9BC), (0x9BE, 0x9C4), (0x9C7, 0x9C8),
  (0x9CB, 0x9CD), (0x9D7, 0x9D7), (0x9E2, 0x9E3), (0x9FE, 0x9FE), (0xA01, 0xA03), (0xA3C, 0xA3C), (0xA3E, 0xA42),
  (0xA47, 0xA48), (0xA4B, 0xA4D), (0xA51, 0xA51), (0xA70, 0xA71), (0xA75, 0xA75), (0xA81, 0xA83), (0xABC, 0xABC),
  (0xABE, 0xAC5), (0xAC7, 0xAC9), (0xACB, 0xACD), (0xAE2, 0xAE3), (0xAFA, 0xAFF), (0xB01, 0xB03), (0xB3C, 0xB3C),
  (0xB3E, 0xB44), (0xB47, 0xB48), (0xB4B, 0xB4D), (0xB55, 0xB57), (0xB62, 0xB63), (0xB82, 0xB82), (0xBBE, 0xBC2),
  (0xBC6, 0xBC8), (0xBCA, 0xBCD), (0xBD7, 0xBD7), (0xC00, 0xC04), (0xC3C, 0xC3C), (0xC3E, 0xC44), (0xC46, 0xC48),
  (0xC4A, 0xC4D), (0xC55, 0xC56), (0xC62, 0xC63), (0xC81, 0xC83), (0xCBC, 0xCBC), (0xCBE, 0xCC4), (0xCC6, 0xCC8),
  (0xCCA, 0xCCD), (0xCD5, 0xCD6), (0xCE2, 0xCE3), (0xD00, 0xD03), (0xD3B, 0xD3C), (0xD3E, 0xD44), (0xD46, 0xD48),
  (0xD4A, 0xD4D), (0xD57, 0xD57), (0xD62, 0xD63), (0xD81, 0xD83), (0xDCA, 0xDCA), (0xDCF, 0xDD4), (0xDD6, 0xDD6),
  (0xDD8, 0xDDF), (0xDF2, 0xDF3), (0xE31, 0xE31), (0xE34, 0xE3A), (0xE47, 0xE4E), (0xEB1, 0xEB1), (0xEB4, 0xEBC),
  (0xEC8, 0xECD), (0xF18, 0xF19), (0xF35, 0xF35), (0xF37, 0xF37), (0xF39, 0xF39), (0xF3E, 0xF3F), (0xF71, 0xF84),
  (0xF86, 0xF87), (0xF8D, 0xF97), (0xF99, 0xFBC), (0xFC6, 0xFC6), (0x102B, 0x103E), (0x1056, 0x1059), (0x105E, 0x1060),
  (0x1062, 0x1064), (0x1067, 0x106D), (0x1071, 0x1074), (0x1082, 0x108D), (0x108F, 0x108F), (0x109A, 0x109D), (0x135D, 0x135F),
  (0x1712, 0x1715), (0x1732, 0x1734), (0x1752, 0x1753), (0x1772, 0x1773), (0x17B4, 0x17D3), (0x17DD, 0x17DD), (0x180B, 0x180D),
  (0x180F, 0x180F), (0x1885, 0x1886), (0x18A9, 0x18A9), (0x1920, 0x192B), (0x1930, 0x193B), (0x1A17, 0x1A1B), (0x1A55, 0x1A5E),
  (0x1A60, 0x1A7C), (0x1A7F, 0x1A7F), (0x1AB0, 0x1ACE), (0x1B00, 0x1B04), (0x1B34, 0x1B44), (0x1B6B, 0x1B73), (0x1B80, 0x1B82),
  (0x1BA1, 0x1BAD), (0x1BE6, 0x1BF3), (0x1C24, 0x1C37), (0x1CD0, 0x1CD2), (0x1CD4, 0x1CE8), (0x1CED, 0x1CED), (0x1CF4, 0x1CF4),
  (0x1CF7, 0x1CF9), (0x1DC0, 0x1DFF), (0x20D0, 0x20F0), (0x2CEF, 0x2CF1), (0x2D7F, 0x2D7F), (0x2DE0, 0x2DFF), (0x302A, 0x302F),
  (0x3099, 0x309A), (0xA66F, 0xA672), (0xA674, 0xA67D), (0xA69E, 0xA69F), (0xA6F0, 0xA6F1), (0xA802, 0xA802), (0xA806, 0xA806),
  (0xA80B, 0xA80B), (0xA823, 0xA827), (0xA82C, 0xA82C), (0xA880, 0xA881), (0xA8B4, 0xA8C5), (0xA8E0, 0xA8F1), (0xA8FF, 0xA8FF),
  (0xA926, 0xA92D), (0xA947, 0xA953), (0xA980, 0xA983), (0xA9B3, 0xA9C0), (0xA9E5, 0xA9E5), (0xAA29, 0xAA36), (0xAA43, 0xAA43),
  (0xAA4C, 0xAA4D), (0xAA7B, 0xAA7D), (0xAAB0, 0xAAB0), (0xAAB2, 0xAAB4), (0xAAB7, 0xAAB8), (0xAABE, 0xAABF), (0xAAC1, 0xAAC1),
  (0xAAEB, 0xAAEF), (0xAAF5, 0xAAF6), (0xABE3, 0xABEA), (0xABEC, 0xABED), (0xFB1E, 0xFB1E), (0xFE00, 0xFE0F), (0xFE20, 0xFE2F),
  (0x101FD, 0x101FD), (0x102E0, 0x102E0), (0x10376, 0x1037A), (0x10A01, 0x10A03), (0x10A05, 0x10A06), (0x10A0C, 0x10A0F), (0x10A38, 0x10A3A),
  (0x10A3F, 0x10A3F), (0x10AE5, 0x10AE6), (0x10D24, 0x10D27), (0x10EAB, 0x10EAC), (0x10F46, 0x10F50), (0x10F82, 0x10F85), (0x11000, 0x11002),
  (0x11038, 0x11046), (0x11070, 0x11070), (0x11073, 0x11074), (0x1107F, 0x11082), (0x110B0, 0x110BA), (0x110C2, 0x110C2), (0x11100, 0x11102),
  (0x11127, 0x11134), (0x11145, 0x11146), (0x11173, 0x11173), (0x11180, 0x11182), (0x111B3, 0x111C0), (0x111C9, 0x111CC), (0x111CE, 0x111CF),
  (0x1122C, 0x11237), (0x1123E, 0x1123E), (0x112DF, 0x112EA), (0x11300, 0x11303), (0x1133B, 0x1133C), (0x1133E, 0x11344), (0x11347, 0x11348),
  (0x1134B, 0x1134D), (0x11357, 0x11357), (0x11362, 0x11363), (0x11366, 0x1136C), (0x11370, 0x11374), (0x11435, 0x11446), (0x1145E, 0x1145E),
  (0x114B0, 0x114C3), (0x115AF, 0x115B5), (0x115B8, 0x115C0), (0x115DC, 0x115DD), (0x11630, 0x11640), (0x116AB, 0x116B7), (0x1171D, 0x1172B),
  (0x1182C, 0x1183A), (0x11930, 0x11935), (0x11937, 0x11938), (0x1193B, 0x1193E), (0x11940, 0x11940), (0x11942, 0x11943), (0x119D1, 0x119D7),
  (0x119DA, 0x119E0), (0x119E4, 0x119E4), (0x11A01, 0x11A0A), (0x11A33, 0x11A39), (0x11A3B, 0x11A3E), (0x11A47, 0x11A47), (0x11A51, 0x11A5B),
  (0x11A8A, 0x11A99), (0x11C2F, 0x11C36), (0x11C38, 0x11C3F), (0x11C92, 0x11CA7), (0x11CA9, 0x11CB6), (0x11D31, 0x11D36), (0x11D3A, 0x11D3A),
  (0x11D3C, 0x11D3D), (0x11D3F, 0x11D45), (0x11D47, 0x11D47), (0x11D8A, 0x11D8E), (0x11D90, 0x11D91), (0x11D93, 0x11D97), (0x11EF3, 0x11EF6),
  (0x16AF0, 0x16AF4), (0x16B30, 0x16B36), (0x16F4F, 0x16F4F), (0x16F51, 0x16F87), (0x16F8F, 0x16F92), (0x16FE4, 0x16FE4), (0x16FF0, 0x16FF1),
  (0x1BC9D, 0x1BC9E), (0x1CF00, 0x1CF2D), (0x1CF30, 0x1CF46), (0x1D165, 0x1D169), (0x1D16D, 0x1D172), (0x1D17B, 0x1D182), (0x1D185, 0x1D18B),
  (0x1D1AA, 0x1D1AD), (0x1D242, 0x1D244), (0x1DA00, 0x1DA36), (0x1DA3B, 0x1DA6C), (0x1DA75, 0x1DA75), (0x1DA84, 0x1DA84), (0x1DA9B, 0x1DA9F),
  (0x1DAA1, 0x1DAAF), (0x1E000, 0x1E006), (0x1E008, 0x1E018), (0x1E01B, 0x1E021), (0x1E023, 0x1E024), (0x1E026, 0x1E02A), (0x1E130, 0x1E136),
  (0x1E2AE, 0x1E2AE), (0x1E2EC, 0x1E2EF), (0x1E8D0, 0x1E8D6), (0x1E944, 0x1E94A), (0xE0100, 0xE01EF)]

/-- Non-ASCII code points of the Unicode general category Pc (connector
punctuation), Unicode 14.0. -/
def connectorTable : List (Nat × Nat) := [
  (0x203F, 0x2040), (0x2054, 0x2054), (0xFE33, 0xFE34), (0xFE4D, 0xFE4F), (0xFF3F, 0xFF3F)]

/-- Digit class of the regex crate's `\d`: the Unicode general
category Nd, that is ASCII `0-9` together with the non-ASCII decimal
digits of `ndTable`. -/
def isNd (c : Char) : Bool :=
  if c.toNat < 128 then c.isDigit else inRanges ndTable c.toNat

/-- Model of Rust's `char::is_alphabetic`, the Unicode Alphabetic
property.  Alphabetic is the categories L and Nl together with the
Other_Alphabetic code points, whose members are combining marks of
category M plus the circled letters; of these extras only the circled
letters are carried by `alphaTable`, so this class is a subset of the
real one that agrees with it on every code point outside category M.
Theorems that conclude from the negative side of this class therefore
require a witness character that is also outside `markTable`, which
makes each of their instances true of the real class as well. -/
def isAlphabeticR (c : Char) : Bool :=
  if c.toNat < 128 then c.isAlpha else inRanges alphaTable c.toNat

/-- Combining-mark class (Unicode general category M); empty on
ASCII. -/
def isMarkR (c : Char) : Bool :=
  if c.toNat < 128 then false else inRanges markTable c.toNat

/-- Word-character class of the regex crate's `\w`, which per UTS#18
is Alphabetic ∪ M ∪ Nd ∪ Pc ∪ Join_Control: equivalently the general
categories L, M, Nd, Nl and Pc together with the join controls
U+200C/U+200D and the circled letters (carried by `alphaTable`).  On
ASCII this is `[0-9A-Za-z_]`. -/
def isWordChar (c : Char) : Bool :=
  if c.toNat < 128 then (c.isAlpha ∨ c.isDigit ∨ c = '_')
  else (inRanges alphaTable c.toNat ∨ inRanges markTable c.toNat ∨
        inRanges ndTable c.toNat ∨ inRanges connectorTable c.toNat ∨
        c.toNat = 0x200C ∨ c.toNat = 0x200D)

/-- Character class `[A-Za-z0-9/_+-]` of the ZONE_LINE name field. -/
def isNameChar (c : Char) : Bool :=
  c.isAlpha ∨ c.isDigit ∨ c = '/' ∨ c = '_' ∨ c = '+' ∨ c = '-'

/-- Numeric value of a run of ASCII digits (most significant first). -/
def digitsVal (ds : List Char) : Nat :=
  ds.foldl (fun a c => 10 * a + (c.toNat - 48)) 0

/-- Body of Rust's integer `FromStr` after the optional sign: a
non-empty run of ASCII digits whose value fits the bound. -/
def parseDigitsBounded (ds : List Char) (bound : Nat) (neg : Bool) : Option Int :=
  if ds ≠ [] ∧ ds.all Char.isDigit ∧ digitsVal ds ≤ bound then
    some (if neg then -(digitsVal ds : Int) else (digitsVal ds : Int))
  else none

/-- Model of Rust's `str::parse::<i8>`: optional sign, at least one
ASCII digit, value within `[-128, 127]`. -/
def rustParseI8 (s : List Char) : Option Int :=
  match s with
  | [] => none
  | c :: ds =>
    if c = '+' then parseDigitsBounded ds 127 false
    else if c = '-' then parseDigitsBounded ds 128 true
    else parseDigitsBounded (c :: ds) 127 false

/-- Model of Rust's `str::parse::<i64>`: optional sign, at least one
ASCII digit, value within `[-2^63, 2^63 - 1]`. -/
def rustParseI64 (s : List Char) : Option Int :=
  match s with
  | [] => none
  | c :: ds =>
    if c = '+' then parseDigitsBounded ds 9223372036854775807 false
    else if c = '-' then parseDigitsBounded ds 9223372036854775808 true
    else parseDigitsBounded (c :: ds) 9223372036854775807 false

/-- Accumulator step of `tokens`: `acc` holds the characters of the
current (unfinished) run, most recent first. -/
def tokensAux (acc : List Char) : List Char → List (List Char)
  | [] => if acc = [] then [] else [acc.reverse]
  | c :: cs =>
    if isWs c then
      if acc = [] then tokensAux [] cs
      else acc.reverse :: tokensAux [] cs
    else tokensAux (c :: acc) cs

/-- Maximal runs of non-whitespace characters of a line, in order.
This is how the anchored regexes of line.rs, whose fields are `\S+`
separated by `\s+` (or `\s*` before an optional field), decompose
their input. -/
def tokens (s : List Char) : List (List Char) :=
  tokensAux [] s

/-- Model of Rust's `str::to_ascii_lowercase`. -/
def asciiLower (s : List Char) : List Char :=
  s.map (fun c => if 'A' ≤ c ∧ c ≤ 'Z' then Char.ofNat (c.toNat + 32) else c)

/-- Month of the year (the datetime crate's `Month`). -/
inductive Month where
  | January | February | March | April | May | June
  | July | August | September | October | November | December
deriving DecidableEq, Repr

/-- Day of the week (the datetime crate's `Weekday`). -/
inductive Weekday where
  | Monday | Tuesday | Wednesday | Thursday | Friday | Saturday | Sunday
deriving DecidableEq, Repr

/-- Clock against which a time value is measured (the datetime crate's
`TimeType`). -/
inductive TimeType where
  | Wall | Standard | UTC
deriving DecidableEq, Repr

/-- A year definition field. -/
inductive YearSpec where
  | Minimum
  | Maximum
  | Number (n : Int)
deriving DecidableEq, Repr

/-- A month field: a wrapper around `Month`. -/
structure MonthSpec where
  month : Month
deriving DecidableEq, Repr

/-- A weekday field: a wrapper around `Weekday`. -/
structure WeekdaySpec where
  weekday : Weekday
deriving DecidableEq, Repr

/-- A day definition field.  The `i8` day numbers of the source are
modelled as integers; parsing only constructs values in `[-128, 127]`. -/
inductive DaySpec where
  | Ordinal (day : Int)
  | Last (w : WeekdaySpec)
  | LastOnOrBefore (w : WeekdaySpec) (day : Int)
  | FirstOnOrAfter (w : WeekdaySpec) (day : Int)
deriving DecidableEq, Repr

/-- A time definition field. -/
inductive TimeSpec where
  | Hours (h : Int)
  | HoursMinutes (h m : Int)
  | HoursMinutesSeconds (h m s : Int)
  | Zero
deriving DecidableEq, Repr

/-- A time spec and a time type. -/
structure TimeSpecAndType where
  spec : TimeSpec
  type : TimeType
deriving DecidableEq, Repr

/-- The amount of daylight saving time to apply to a timespan. -/
inductive Saving where
  | NoSaving
  | OneOff (t : TimeSpec)
  | Multiple (name : List Char)
deriving DecidableEq, Repr

/-- The time at which the rules change for a location. -/
inductive ChangeTime where
  | UntilYear (y : YearSpec)
  | UntilMonth (y : YearSpec) (m : MonthSpec)
  | UntilDay (y : YearSpec) (m : MonthSpec) (d : DaySpec)
  | UntilTime (y : YearSpec) (m : MonthSpec) (d : DaySpec) (t : TimeSpecAndType)
deriving DecidableEq, Repr

/-- Parser of the year field (`impl FromStr for YearSpec`).  The
`input.parse().unwrap()` aborts when the all-digit input is empty or
does not fit in an `i64`. -/
def YearSpec.from_str (s : List Char) : PResult YearSpec :=
  if s = "min".data ∨ s = "minimum".data then .ok .Minimum
  else if s = "max".data ∨ s = "maximum".data then .ok .Maximum
  else if s.all Char.isDigit then
    match rustParseI64 s with
    | some n => .ok (.Number n)
    | none => .abort
  else .fail

/-- Month-name table of `MonthSpec::from_str`, applied to the
lowercased input. -/
def monthOfName (l : List Char) : PResult MonthSpec :=
  if l = "jan".data ∨ l = "january".data then .ok ⟨.January⟩
  else if l = "feb".data ∨ l = "february".data then .ok ⟨.February⟩
  else if l = "mar".data ∨ l = "march".data then .ok ⟨.March⟩
  else if l = "apr".data ∨ l = "april".data then .ok ⟨.April⟩
  else if l = "may".data then .ok ⟨.May⟩
  else if l = "jun".data ∨ l = "june".data then .ok ⟨.June⟩
  else if l = "jul".data ∨ l = "july".data then .ok ⟨.July⟩
  else if l = "aug".data ∨ l = "august".data then .ok ⟨.August⟩
  else if l = "sep".data ∨ l = "september".data then .ok ⟨.September⟩
  else if l = "oct".data ∨ l = "october".data then .ok ⟨.October⟩
  else if l = "nov".data ∨ l = "november".data then .ok ⟨.November⟩
  else if l = "dec".data ∨ l = "december".data then .ok ⟨.December⟩
  else .fail

/-- Parser of the month field (`impl FromStr for MonthSpec`):
case-insensitive three-letter abbreviation or full English name. -/
def MonthSpec.from_str (s : List Char) : PResult MonthSpec :=
  monthOfName (asciiLower s)

/-- Weekday-name table of `WeekdaySpec::from_str`, applied to the
lowercased input. -/
def weekdayOfName (l : List Char) : PResult WeekdaySpec :=
  if l = "mon".data ∨ l = "monday".data then .ok ⟨.Monday⟩
  else if l = "tue".data ∨ l = "tuesday".data then .ok ⟨.Tuesday⟩
  else if l = "wed".data ∨ l = "wednesday".data then .ok ⟨.Wednesday⟩
  else if l = "thu".data ∨ l = "thursday".data then .ok ⟨.Thursday⟩
  else if l = "fri".data ∨ l = "friday".data then .ok ⟨.Friday⟩
  else if l = "sat".data ∨ l = "saturday".data then .ok ⟨.Saturday⟩
  else if l = "sun".data ∨ l = "sunday".data then .ok ⟨.Sunday⟩
  else .fail

/-- Parser of the weekday field (`impl FromStr for WeekdaySpec`). -/
def WeekdaySpec.from_str (s : List Char) : PResult WeekdaySpec :=
  weekdayOfName (asciiLower s)

/-- Captures of the DAY_FIELD regex
`weekday [<>]= day` (a word run, a comparison sign, a digit run):
`isOnOrBefore` is true when the sign is `<=`. -/
structure DayFieldCaps where
  weekday : List Char
  isOnOrBefore : Bool
  day : List Char
deriving DecidableEq, Repr

/-- Matching of the DAY_FIELD regex: a non-empty run of word
characters (`\w`, the Unicode word class), a `<=` or `>=` sign, and a
non-empty run of decimal digits (`\d`, Unicode Nd) running to the end
of the input. -/
def dayFieldCaptures (s : List Char) : Option DayFieldCaps :=
  let w := s.takeWhile isWordChar
  match s.dropWhile isWordChar with
  | '<' :: '=' :: ds =>
    if w ≠ [] ∧ ds ≠ [] ∧ ds.all isNd then some ⟨w, true, ds⟩ else none
  | '>' :: '=' :: ds =>
    if w ≠ [] ∧ ds ≠ [] ∧ ds.all isNd then some ⟨w, false, ds⟩ else none
  | _ => none

/-- Handling of a DAY_FIELD match in `DaySpec::from_str`: the weekday
and day captures are parsed with `.unwrap()`, so a non-weekday word or
an over-`i8` day number aborts. -/
def dayFieldParse (c : DayFieldCaps) : PResult DaySpec :=
  match WeekdaySpec.from_str c.weekday with
  | .ok w =>
    match rustParseI8 c.day with
    | some d =>
      if c.isOnOrBefore then .ok (.LastOnOrBefore w d) else .ok (.FirstOnOrAfter w d)
    | none => .abort
  | _ => .abort

/-- Parser of the day field (`impl FromStr for DaySpec`).  The
`parse().unwrap()` calls abort on all-ASCII-digit inputs that are
empty or exceed `i8`, on a DAY_FIELD weekday capture that is not a
weekday name, and on a DAY_FIELD day capture that does not parse as
`i8` (over-range or containing non-ASCII decimal digits). -/
def DaySpec.from_str (s : List Char) : PResult DaySpec :=
  if s.all Char.isDigit then
    match rustParseI8 s with
    | some n => .ok (.Ordinal n)
    | none => .abort
  else if s.take 4 = "last".data then
    match WeekdaySpec.from_str (s.drop 4) with
    | .ok w => .ok (.Last w)
    | .fail => .fail
    | .abort => .abort
  else
    match dayFieldCaptures s with
    | some c => dayFieldParse c
    | none => .fail

/-- Captures of the HM_FIELD regex
(an optional sign, a one- or two-digit hour, a colon, a two-digit
minute, and an optional flag letter in [wsugz]). -/
structure HmCaps where
  neg : Bool
  hour : List Char
  minute : List Char
  flag : Option Char
deriving DecidableEq, Repr

/-- Captures of the HMS_FIELD regex: like HM_FIELD with an additional
two-digit seconds component. -/
structure HmsCaps where
  neg : Bool
  hour : List Char
  minute : List Char
  second : List Char
  flag : Option Char
deriving DecidableEq, Repr

/-- Removal of the optional leading sign matched by `-?` in HM_FIELD
and HMS_FIELD: returns whether a sign was present and the rest of the
input. -/
def stripSign (s : List Char) : Bool × List Char :=
  match s with
  | [] => (false, [])
  | c :: r => if c = '-' then (true, r) else (false, c :: r)

/-- Tail of an HM_FIELD match after the two minute digits: either the
end of the input or a single flag letter in `[wsugz]`. -/
def hmAfterMinutes (neg : Bool) (hs : List Char) (m1 m2 : Char) (rest : List Char) :
    Option HmCaps :=
  if isNd m1 ∧ isNd m2 then
    match rest with
    | [] => some ⟨neg, hs, [m1, m2], none⟩
    | [f] =>
      if f = 'w' ∨ f = 's' ∨ f = 'u' ∨ f = 'g' ∨ f = 'z' then
        some ⟨neg, hs, [m1, m2], some f⟩
      else none
    | _ => none
  else none

/-- Matching of HM_FIELD after the optional sign: a one- or two-digit
hour (`\d`, Unicode Nd), a colon, two minute digits, and an optional
flag. -/
def hmFrom (neg : Bool) (r : List Char) : Option HmCaps :=
  if (r.takeWhile isNd).length = 0 ∨ 2 < (r.takeWhile isNd).length then none
  else
    match r.drop (r.takeWhile isNd).length with
    | ':' :: m1 :: m2 :: rest => hmAfterMinutes neg (r.takeWhile isNd) m1 m2 rest
    | _ => none

/-- Matching of the HM_FIELD regex. -/
def hmCaptures (s : List Char) : Option HmCaps :=
  hmFrom (stripSign s).1 (stripSign s).2

/-- Tail of an HMS_FIELD match after the two second digits. -/
def hmsAfterSeconds (neg : Bool) (hs : List Char) (m1 m2 s1 s2 : Char) (rest : List Char) :
    Option HmsCaps :=
  if isNd m1 ∧ isNd m2 ∧ isNd s1 ∧ isNd s2 then
    match rest with
    | [] => some ⟨neg, hs, [m1, m2], [s1, s2], none⟩
    | [f] =>
      if f = 'w' ∨ f = 's' ∨ f = 'u' ∨ f = 'g' ∨ f = 'z' then
        some ⟨neg, hs, [m1, m2], [s1, s2], some f⟩
      else none
    | _ => none
  else none

/-- Matching of HMS_FIELD after the optional sign: a one- or two-digit
hour, a colon, two minute digits, a colon, two second digits, and an
optional flag. -/
def hmsFrom (neg : Bool) (r : List Char) : Option HmsCaps :=
  if (r.takeWhile isNd).length = 0 ∨ 2 < (r.takeWhile isNd).length then none
  else
    match r.drop (r.takeWhile isNd).length with
    | ':' :: m1 :: m2 :: ':' :: s1 :: s2 :: rest =>
      hmsAfterSeconds neg (r.takeWhile isNd) m1 m2 s1 s2 rest
    | _ => none

/-- Matching of the HMS_FIELD regex. -/
def hmsCaptures (s : List Char) : Option HmsCaps :=
  hmsFrom (stripSign s).1 (stripSign s).2

/-- Time type selected by a flag suffix (`parse_time_type`). -/
def parse_time_type (c : Char) : Option TimeType :=
  if c = 'w' then some .Wall
  else if c = 's' then some .Standard
  else if c = 'u' ∨ c = 'g' ∨ c = 'z' then some .UTC
  else none

/-- Sign multiplier applied jointly to every component of an HM/HMS
field. -/
def hmSign (neg : Bool) : Int := if neg then -1 else 1

/-- Parser of a time field with its type
(`impl FromStr for TimeSpecAndType`).  On an input made only of `-`
and ASCII digits (other than the literal `-` itself) that is not an
`i8` integer literal, the `parse().unwrap()` aborts; likewise the
unwraps abort on an HM_FIELD or HMS_FIELD match whose captured digit
group does not parse as `i8` — the `\d` groups admit non-ASCII
decimal digits, which `parse` rejects. -/
def TimeSpecAndType.from_str (s : List Char) : PResult TimeSpecAndType :=
  if s = "-".data then .ok ⟨.Zero, .Wall⟩
  else if s.all (fun c => c = '-' ∨ c.isDigit) then
    match rustParseI8 s with
    | some n => .ok ⟨.Hours n, .Wall⟩
    | none => .abort
  else
    match hmCaptures s with
    | some c =>
      match rustParseI8 c.hour, rustParseI8 c.minute with
      | some h, some m =>
        .ok ⟨.HoursMinutes (h * hmSign c.neg) (m * hmSign c.neg),
             (c.flag.bind parse_time_type).getD .Wall⟩
      | _, _ => .abort
    | none =>
      match hmsCaptures s with
      | some c =>
        match rustParseI8 c.hour, rustParseI8 c.minute, rustParseI8 c.second with
        | some h, some m, some sec =>
          .ok ⟨.HoursMinutesSeconds (h * hmSign c.neg) (m * hmSign c.neg) (sec * hmSign c.neg),
               (c.flag.bind parse_time_type).getD .Wall⟩
        | _, _, _ => .abort
      | none => .fail

/-- Parser of a plain time field (`impl FromStr for TimeSpec`):
succeeds exactly on inputs that `TimeSpecAndType` parses with the Wall
time type. -/
def TimeSpec.from_str (s : List Char) : PResult TimeSpec :=
  match TimeSpecAndType.from_str s with
  | .ok ⟨t, .Wall⟩ => .ok t
  | .ok _ => .fail
  | .fail => .fail
  | .abort => .abort

/-- Parser of the rules/save field (`Saving::from_str`): the literal
`-`, a token of `-`, `_` and alphabetic characters
(`char::is_alphabetic`), or a token matching HM_FIELD, whose digits
are then parsed as `i8` inside `TimeSpec` parsing — a match whose
captured digits are not ASCII aborts via `parse().unwrap()`. -/
def Saving.from_str (s : List Char) : PResult Saving :=
  if s = "-".data then .ok .NoSaving
  else if s.all (fun c => c = '-' ∨ c = '_' ∨ isAlphabeticR c) then .ok (.Multiple s)
  else if (hmCaptures s).isSome then
    match TimeSpec.from_str s with
    | .ok t => .ok (.OneOff t)
    | .fail => .fail
    | .abort => .abort
  else .fail

/-- Captures of the RULE_LINE regex: the keyword `Rule` followed by
nine whitespace-separated fields (further trailing text is not
inspected, as the regex has no end anchor). -/
structure RuleCaps where
  rname : List Char
  rfrom : List Char
  rto : List Char
  rtype : List Char
  rin : List Char
  ron : List Char
  rat : List Char
  rsave : List Char
  rletters : List Char
deriving DecidableEq, Repr

/-- Matching of the RULE_LINE regex (the literal Rule and nine
whitespace-separated field groups): the line
must begin with the literal `Rule`, a whitespace character, and at
least nine tokens; the captures are the first nine tokens. -/
def ruleCaptures (s : List Char) : Option RuleCaps :=
  match s with
  | 'R' :: 'u' :: 'l' :: 'e' :: c :: rest =>
    if isWs c then
      match tokens (c :: rest) with
      | f0 :: f1 :: f2 :: f3 :: f4 :: f5 :: f6 :: f7 :: f8 :: _ =>
        some ⟨f0, f1, f2, f3, f4, f5, f6, f7, f8⟩
      | _ => none
    else none
  | _ => none

/-- A rule definition line. -/
structure Rule where
  name : List Char
  from_year : YearSpec
  to_year : Option YearSpec
  month : MonthSpec
  day : DaySpec
  time : TimeSpecAndType
  time_to_add : TimeSpec
  letters : Option (List Char)
deriving DecidableEq, Repr

/-- Field parsing of `Rule::from_str` after the RULE_LINE regex has
matched: fields are parsed in source order (from-year, to-year, then
the type column is checked to be an ASCII hyphen or the Unicode hyphen
U+2010, then month, day, time, save and letters; a letters column of
`-` becomes None). -/
def ruleFromCaps (c : RuleCaps) : PResult Rule := do
  let from_year ← YearSpec.from_str c.rfrom
  let to_year ←
    if c.rto = "only".data then pure none
    else do
      let y ← YearSpec.from_str c.rto
      pure (some y)
  if c.rtype = "-".data ∨ c.rtype = "\u2010".data then do
    let month ← MonthSpec.from_str c.rin
    let day ← DaySpec.from_str c.ron
    let time ← TimeSpecAndType.from_str c.rat
    let time_to_add ← TimeSpec.from_str c.rsave
    let letters := if c.rletters = "-".data then none else some c.rletters
    pure ⟨c.rname, from_year, to_year, month, day, time, time_to_add, letters⟩
  else .fail

/-- Parser of a rule line (`Rule::from_str`): captures of RULE_LINE
fed through `ruleFromCaps`. -/
def Rule.from_str (s : List Char) : PResult Rule :=
  match ruleCaptures s with
  | none => .fail
  | some c => ruleFromCaps c

/-- The four optional trailing captures (year, month, day, time) of a
ZONE_LINE or CONTINUATION_LINE match, taken in order from the tokens
following the mandatory fields; tokens beyond the fourth are not
inspected (no end anchor). -/
def optFields (l : List (List Char)) :
    Option (List Char) × Option (List Char) × Option (List Char) × Option (List Char) :=
  match l with
  | [] => (none, none, none, none)
  | [a] => (some a, none, none, none)
  | [a, b] => (some a, some b, none, none)
  | [a, b, c] => (some a, some b, some c, none)
  | a :: b :: c :: d :: _ => (some a, some b, some c, some d)

/-- Captures of the ZONE_LINE regex. -/
structure ZoneCaps where
  name : List Char
  gmtoff : List Char
  rulessave : List Char
  format : List Char
  year : Option (List Char)
  month : Option (List Char)
  day : Option (List Char)
  time : Option (List Char)
deriving DecidableEq, Repr

/-- Matching of the ZONE_LINE regex: the literal `Zone`, whitespace, a
name made only of `[A-Za-z0-9/_+-]`, three mandatory tokens and up to
four optional tokens. -/
def zoneCaptures (s : List Char) : Option ZoneCaps :=
  match s with
  | 'Z' :: 'o' :: 'n' :: 'e' :: c :: rest =>
    if isWs c then
      match tokens (c :: rest) with
      | n :: g :: r :: f :: opt =>
        if n.all isNameChar then
          some ⟨n, g, r, f, (optFields opt).1, (optFields opt).2.1,
                (optFields opt).2.2.1, (optFields opt).2.2.2⟩
        else none
      | _ => none
    else none
  | _ => none

/-- Captures of the CONTINUATION_LINE regex. -/
structure ContCaps where
  gmtoff : List Char
  rulessave : List Char
  format : List Char
  year : Option (List Char)
  month : Option (List Char)
  day : Option (List Char)
  time : Option (List Char)
deriving DecidableEq, Repr

/-- Matching of the CONTINUATION_LINE regex: mandatory leading
whitespace, three mandatory tokens and up to four optional tokens. -/
def contCaptures (s : List Char) : Option ContCaps :=
  match s with
  | [] => none
  | c :: rest =>
    if isWs c then
      match tokens (c :: rest) with
      | g :: r :: f :: opt =>
        some ⟨g, r, f, (optFields opt).1, (optFields opt).2.1,
              (optFields opt).2.2.1, (optFields opt).2.2.2⟩
      | _ => none
    else none

/-- The information contained in both zone lines and zone continuation
lines. -/
structure ZoneInfo where
  utc_offset : TimeSpec
  saving : Saving
  format : List Char
  time : Option ChangeTime
deriving DecidableEq, Repr

/-- Construction of a `ZoneInfo` from the captures of a ZONE_LINE or
CONTINUATION_LINE match (`ZoneInfo::from_captures`).  The cascade
match on the four optional captures mirrors the source: the arm for
out-of-prefix-order captures is the `unreachable!` abort. -/
def ZoneInfo.from_captures (g r f : List Char)
    (oy om od ot : Option (List Char)) : PResult ZoneInfo := do
  let utc_offset ← TimeSpec.from_str g
  let saving ← Saving.from_str r
  let time ←
    match oy, om, od, ot with
    | some y, some m, some d, some t => do
      let ys ← YearSpec.from_str y
      let ms ← MonthSpec.from_str m
      let ds ← DaySpec.from_str d
      let ts ← TimeSpecAndType.from_str t
      pure (some (ChangeTime.UntilTime ys ms ds ts))
    | some y, some m, some d, none => do
      let ys ← YearSpec.from_str y
      let ms ← MonthSpec.from_str m
      let ds ← DaySpec.from_str d
      pure (some (ChangeTime.UntilDay ys ms ds))
    | some y, some m, none, _ => do
      let ys ← YearSpec.from_str y
      let ms ← MonthSpec.from_str m
      pure (some (ChangeTime.UntilMonth ys ms))
    | some y, _, _, _ => do
      let ys ← YearSpec.from_str y
      pure (some (ChangeTime.UntilYear ys))
    | none, none, none, none => pure none
    | _, _, _, _ => PResult.abort
  pure ⟨utc_offset, saving, f, time⟩

/-- A zone definition line. -/
structure Zone where
  name : List Char
  info : ZoneInfo
deriving DecidableEq, Repr

/-- Parser of a zone line (`Zone::from_str`). -/
def Zone.from_str (s : List Char) : PResult Zone :=
  match zoneCaptures s with
  | some c => do
    let info ← ZoneInfo.from_captures c.gmtoff c.rulessave c.format c.year c.month c.day c.time
    pure ⟨c.name, info⟩
  | none => .fail

/-- A link definition line. -/
structure Link where
  existing : List Char
  new : List Char
deriving DecidableEq, Repr

/-- Matching of the LINK_LINE regex: the literal `Link`, whitespace,
and at least two tokens. -/
def linkCaptures (s : List Char) : Option (List Char × List Char) :=
  match s with
  | 'L' :: 'i' :: 'n' :: 'k' :: c :: rest =>
    if isWs c then
      match tokens (c :: rest) with
      | t :: n :: _ => some (t, n)
      | _ => none
    else none
  | _ => none

/-- Parser of a link line (`Link::from_str`). -/
def Link.from_str (s : List Char) : PResult Link :=
  match linkCaptures s with
  | some c => .ok ⟨c.1, c.2⟩
  | none => .fail

/-- Matching of the EMPTY_LINE regex, anchored at both ends:
optional whitespace, then optionally a `#` and a comment running to
the end of the input; `.` does not match a newline, so a newline after
the `#` defeats the end anchor. -/
def emptyLineMatch (s : List Char) : Bool :=
  match s.dropWhile isWs with
  | [] => true
  | '#' :: rest => !rest.contains '\n'
  | _ => false

/-- A type of valid line that has been parsed. -/
inductive Line where
  | Space
  | Zone (z : Zone)
  | Continuation (zi : ZoneInfo)
  | Rule (r : Rule)
  | Link (l : Link)
deriving DecidableEq, Repr

/-- The line classifier (`Line::from_str`): blank/comment first, then
Zone, Continuation, Rule and Link, first success wins; an abort inside
any category aborts the whole classification. -/
def Line.from_str (s : List Char) : PResult Line :=
  if emptyLineMatch s then .ok .Space
  else
    match Zone.from_str s with
    | .ok z => .ok (.Zone z)
    | .abort => .abort
    | .fail =>
      match contCaptures s with
      | some c => do
        let zi ← ZoneInfo.from_captures c.gmtoff c.rulessave c.format c.year c.month c.day c.time
        pure (.Continuation zi)
      | none =>
        match Rule.from_str s with
        | .ok r => .ok (.Rule r)
        | .abort => .abort
        | .fail =>
          match Link.from_str s with
          | .ok l => .ok (.Link l)
          | .abort => .abort
          | .fail => .fail

/-- Modelled from the spec: the Calendar collaborator of §6 is the
proleptic Gregorian calendar of the external datetime crate.  Leap
year rule. -/
def isLeapYear (y : Int) : Bool :=
  y % 4 = 0 ∧ (y % 100 ≠ 0 ∨ y % 400 = 0)

/-- Modelled from the spec: `days_in_month(year, month)` of the
Calendar collaborator. -/
def days_in_month (y : Int) (m : Month) : Int :=
  match m with
  | .January => 31
  | .February => if isLeapYear y then 29 else 28
  | .March => 31
  | .April => 30
  | .May => 31
  | .June => 30
  | .July => 31
  | .August => 31
  | .September => 30
  | .October => 31
  | .November => 30
  | .December => 31

/-- Month offsets of Sakamoto's weekday formula. -/
def sakamotoOffset (m : Month) : Int :=
  match m with
  | .January => 0
  | .February => 3
  | .March => 2
  | .April => 5
  | .May => 0
  | .June => 3
  | .July => 5
  | .August => 1
  | .September => 4
  | .October => 6
  | .November => 2
  | .December => 4

/-- True for January and February (the months before a possible leap
day). -/
def monthIsEarly (m : Month) : Bool :=
  m = .January ∨ m = .February

/-- Modelled from the spec: `weekday_of(year, month, day)` of the
Calendar collaborator, computed with Sakamoto's algorithm. -/
def weekday_of (y : Int) (m : Month) (d : Int) : Weekday :=
  let yy := if monthIsEarly m then y - 1 else y
  let w := (yy + yy / 4 - yy / 100 + yy / 400 + sakamotoOffset m + d) % 7
  if w = 0 then .Sunday
  else if w = 1 then .Monday
  else if w = 2 then .Tuesday
  else if w = 3 then .Wednesday
  else if w = 4 then .Thursday
  else if w = 5 then .Friday
  else .Saturday

/-- Days in the months of year `y` strictly before month `m`. -/
def daysBeforeMonth (y : Int) (m : Month) : Int :=
  (match m with
   | .January => 0
   | .February => 31
   | .March => 59
   | .April => 90
   | .May => 120
   | .June => 151
   | .July => 181
   | .August => 212
   | .September => 243
   | .October => 273
   | .November => 304
   | .December => 334) +
  (if !monthIsEarly m ∧ isLeapYear y then 1 else 0)

/-- Leap years strictly before year `y` (counted from year 1). -/
def leapDaysBefore (y : Int) : Int :=
  (y - 1) / 4 - (y - 1) / 100 + (y - 1) / 400

/-- Day count of a date in the proleptic Gregorian calendar. -/
def rataDie (y : Int) (m : Month) (d : Int) : Int :=
  365 * (y - 1) + leapDaysBefore y + daysBeforeMonth y m + d

/-- Modelled from the spec: days between a date and the Unix epoch,
used to turn a resolved date into an absolute instant
(`LocalDateTime::to_instant` of the external datetime crate). -/
def daysSinceEpoch (y : Int) (m : Month) (d : Int) : Int :=
  rataDie y m d - rataDie 1970 .January 1

/-- A concrete calendar date (the datetime crate's `LocalDate`). -/
structure LocalDate where
  year : Int
  month : Month
  day : Int
deriving DecidableEq, Repr

/-- Modelled from the spec: `LocalDate::ymd(..).unwrap()` of the
external datetime crate — a date with an out-of-range day makes the
unwrap abort. -/
def LocalDate.ymd (y : Int) (m : Month) (d : Int) : PResult LocalDate :=
  if 1 ≤ d ∧ d ≤ days_in_month y m then .ok ⟨y, m, d⟩ else .abort

/-- Modelled from the spec: `LocalTime::hms(..).unwrap()` of the
external datetime crate, as seconds past midnight — out-of-range
components make the unwrap abort. -/
def LocalTime.hms (h m s : Int) : PResult Int :=
  if 0 ≤ h ∧ h ≤ 23 ∧ 0 ≤ m ∧ m ≤ 59 ∧ 0 ≤ s ∧ s ≤ 59 then
    .ok (3600 * h + 60 * m + s)
  else .abort

/-- The day numbers `1, …, days_in_month y m` of a month, in order
(the `Year(year).month(month).days(..)` iterator). -/
def monthDayList (y : Int) (m : Month) : List Int :=
  (List.range (days_in_month y m).toNat).map (fun i => ((i + 1 : Nat) : Int))

/-- Search of `DaySpec::find_weekday`: the first day in the list whose
weekday matches; the `.expect("Failed to find weekday")` aborts when
there is none. -/
def DaySpec.find_weekday (w : WeekdaySpec) (y : Int) (m : Month) (l : List Int) :
    PResult LocalDate :=
  match l.find? (fun d => weekday_of y m d == w.weekday) with
  | some d => .ok ⟨y, m, d⟩
  | none => .abort

/-- Resolution of a day specification to a concrete date
(`DaySpec::to_concrete_date`).  `LastOnOrBefore` keeps only days
strictly below its bound, as in the source (`d.day() < day`).  For
`FirstOnOrAfter` the source computes `day as usize - 1` for the skip
count: when `day ≤ 0` this underflows/wraps, emptying the iterator, so
the search aborts either way. -/
def DaySpec.to_concrete_date (ds : DaySpec) (year : Int) (month : Month) :
    PResult LocalDate :=
  match ds with
  | .Ordinal d => LocalDate.ymd year month d
  | .Last w => DaySpec.find_weekday w year month (monthDayList year month).reverse
  | .LastOnOrBefore w d =>
    DaySpec.find_weekday w year month
      ((monthDayList year month).reverse.filter (fun x => decide (x < d)))
  | .FirstOnOrAfter w d =>
    if d ≤ 0 then .abort
    else DaySpec.find_weekday w year month ((monthDayList year month).drop (d - 1).toNat)

/-- The year field shared by every `ChangeTime` variant. -/
def ChangeTime.yearSpec : ChangeTime → YearSpec
  | .UntilYear y => y
  | .UntilMonth y _ => y
  | .UntilDay y _ _ => y
  | .UntilTime y _ _ _ => y

/-- Resolution of a change time to seconds since the Unix epoch
(`ChangeTime::to_timestamp`).  Only `YearSpec::Number` years are
matched; the catch-all arm is the source's `unreachable!` abort.  In
the `UntilTime` arm the source computes the local time before
resolving the date, so that order of aborts is preserved. -/
def ChangeTime.to_timestamp (ct : ChangeTime) : PResult Int :=
  match ct with
  | .UntilYear (.Number y) => do
    let d ← LocalDate.ymd y .January 1
    pure (86400 * daysSinceEpoch d.year d.month d.day)
  | .UntilMonth (.Number y) m => do
    let d ← LocalDate.ymd y m.month 1
    pure (86400 * daysSinceEpoch d.year d.month d.day)
  | .UntilDay (.Number y) m ds => do
    let d ← ds.to_concrete_date y m.month
    pure (86400 * daysSinceEpoch d.year d.month d.day)
  | .UntilTime (.Number y) m ds t => do
    let lt ←
      match t.spec with
      | .Zero => pure 0
      | .Hours h => LocalTime.hms h 0 0
      | .HoursMinutes h mm => LocalTime.hms h mm 0
      | .HoursMinutesSeconds h mm s2 => LocalTime.hms h mm s2
    let d ← ds.to_concrete_date y m.month
    pure (86400 * daysSinceEpoch d.year d.month d.day + lt)
  | _ => .abort

/-- The cascade-order property of the four optional captures: a later
column is present only when every earlier one is (one of the five
valid prefixes of year, month, day, time). -/
def optionalPrefixOk (oy om od ot : Option (List Char)) : Prop :=
  (om.isSome = true → oy.isSome = true) ∧ (od.isSome = true → om.isSome = true) ∧
  (ot.isSome = true → od.isSome = true)

/-! Helper lemmas. -/

theorem PResult.bind_def {α β : Type} (x : PResult α) (f : α → PResult β) :
    x >>= f = PResult.bind x f := rfl

theorem PResult.pure_def {α : Type} (a : α) : (pure a : PResult α) = .ok a := rfl

theorem PResult.bind_eq_ok {α β : Type} {x : PResult α} {f : α → PResult β} {b : β}
    (h : PResult.bind x f = .ok b) : ∃ a, x = .ok a ∧ f a = .ok b := by
  cases x with
  | ok a => exact ⟨a, rfl, h⟩
  | fail => exact absurd h (by simp [PResult.bind])
  | abort => exact absurd h (by simp [PResult.bind])

theorem digit_toNat_bounds {c : Char} (h : c.isDigit = true) :
    48 ≤ c.toNat ∧ c.toNat ≤ 57 := by
  simp [Char.isDigit] at h
  exact ⟨by exact_mod_cast h.1, by exact_mod_cast h.2⟩

theorem alpha_toNat_bounds {c : Char} (h : c.isAlpha = true) :
    65 ≤ c.toNat ∧ c.toNat ≤ 122 := by
  simp [Char.isAlpha, Char.isUpper, Char.isLower] at h
  rcases h with ⟨h1, h2⟩ | ⟨h1, h2⟩
  · exact ⟨by exact_mod_cast h1, by
      have : c.toNat ≤ 90 := by exact_mod_cast h2
      omega⟩
  · exact ⟨by
      have : 97 ≤ c.toNat := by exact_mod_cast h1
      omega, by exact_mod_cast h2⟩

theorem digit_not_alpha {c : Char} (hd : c.isDigit = true) : c.isAlpha = false := by
  cases h : c.isAlpha with
  | false => rfl
  | true =>
    have h1 := digit_toNat_bounds hd
    have h2 := alpha_toNat_bounds h
    omega

theorem digit_not_alphabeticR {c : Char} (h : c.isDigit = true) : isAlphabeticR c = false := by
  have hb := digit_toNat_bounds h
  unfold isAlphabeticR
  rw [if_pos (by omega)]
  exact digit_not_alpha h

theorem digit_ne {c d : Char} (hc : c.isDigit = true) (hd : d.isDigit = false) : c ≠ d := by
  intro heq
  subst heq
  rw [hc] at hd
  cases hd

theorem isNd_of_isDigit {c : Char} (h : c.isDigit = true) : isNd c = true := by
  have hb := digit_toNat_bounds h
  unfold isNd
  rw [if_pos (by omega)]
  exact h

theorem all_isNd_of_digits {l : List Char} (h : l.all Char.isDigit = true) :
    l.all isNd = true :=
  List.all_eq_true.mpr (fun x hx => isNd_of_isDigit (List.all_eq_true.mp h x hx))

theorem nd_ne {c d : Char} (hc : isNd c = true) (hd : isNd d = false) : c ≠ d := by
  intro heq
  subst heq
  rw [hc] at hd
  cases hd

theorem digitsVal_le_99 (ds : List Char) (h : ds.all Char.isDigit = true)
    (hl : ds.length ≤ 2) : digitsVal ds ≤ 99 := by
  match ds with
  | [] => simp [digitsVal]
  | [a] =>
    simp at h
    have := digit_toNat_bounds h
    simp [digitsVal]
    omega
  | [a, b] =>
    simp at h
    have ha := digit_toNat_bounds h.1
    have hb := digit_toNat_bounds h.2
    simp [digitsVal, List.foldl]
    omega
  | a :: b :: c :: t => simp at hl

theorem rustParseI8_digits {ds : List Char} (h0 : ds ≠ []) (h1 : ds.all Char.isDigit = true)
    (h2 : digitsVal ds ≤ 127) : rustParseI8 ds = some ((digitsVal ds : Int)) := by
  match ds with
  | [] => exact absurd rfl h0
  | c :: cs =>
    have hc : c.isDigit = true := by
      simp at h1
      exact h1.1
    have hp : c ≠ '+' := digit_ne hc (by decide)
    have hm : c ≠ '-' := digit_ne hc (by decide)
    simp only [rustParseI8, if_neg hp, if_neg hm]
    rw [parseDigitsBounded, if_pos ⟨by simp, h1, h2⟩]
    simp

theorem takeWhile_all {p : Char → Bool} {l : List Char} (h : l.all p = true) :
    l.takeWhile p = l := by
  induction l with
  | nil => rfl
  | cons a t ih =>
    simp at h
    rw [List.takeWhile_cons_of_pos h.1, ih (List.all_eq_true.mpr h.2)]

theorem dropWhile_append_all {p : Char → Bool} {l r : List Char} (h : l.all p = true) :
    (l ++ r).dropWhile p = r.dropWhile p := by
  induction l with
  | nil => rfl
  | cons a t ih =>
    simp at h
    simpa [List.dropWhile_cons, h.1] using ih (List.all_eq_true.mpr h.2)

theorem stripSign_mem {s : List Char} {x : Char} (h : x ∈ (stripSign s).2) : x ∈ s := by
  cases s with
  | nil => simp [stripSign] at h
  | cons a t =>
    by_cases ha : a = '-'
    · subst ha
      simp [stripSign] at h
      simp [h]
    · simpa [stripSign, ha] using h

theorem hmFrom_inv {neg : Bool} {r : List Char} {c : HmCaps} (h : hmFrom neg r = some c) :
    c.neg = neg ∧ c.hour = r.takeWhile isNd ∧ c.hour ≠ [] ∧ c.hour.length ≤ 2 ∧
    c.hour.all isNd = true ∧
    ∃ m1 m2 rest, r.drop c.hour.length = ':' :: m1 :: m2 :: rest ∧ c.minute = [m1, m2] ∧
      isNd m1 = true ∧ isNd m2 = true := by
  unfold hmFrom at h
  split at h
  · exact absurd h (by simp)
  · rename_i hlen
    split at h
    · rename_i m1 m2 rest heq
      unfold hmAfterMinutes at h
      split at h
      · rename_i hdig
        have hht : c.hour = r.takeWhile isNd ∧ c.neg = neg ∧
            c.minute = [m1, m2] := by
          split at h
          · obtain rfl := Option.some.inj h
            exact ⟨rfl, rfl, rfl⟩
          · split at h
            · obtain rfl := Option.some.inj h
              exact ⟨rfl, rfl, rfl⟩
            · exact absurd h (by simp)
          · exact absurd h (by simp)
        refine ⟨hht.2.1, hht.1, ?_, ?_, ?_, m1, m2, rest, ?_, hht.2.2, hdig.1, hdig.2⟩
        · rw [hht.1]
          intro hnil
          rw [hnil] at hlen
          simp at hlen
        · rw [hht.1]
          omega
        · rw [hht.1]
          exact List.all_eq_true.mpr (fun x hx => List.mem_takeWhile_imp hx)
        · rw [hht.1]
          exact heq
      · exact absurd h (by simp)
    · exact absurd h (by simp)

theorem hmsFrom_inv {neg : Bool} {r : List Char} {c : HmsCaps} (h : hmsFrom neg r = some c) :
    c.neg = neg ∧ c.hour = r.takeWhile isNd ∧ c.hour ≠ [] ∧ c.hour.length ≤ 2 ∧
    c.hour.all isNd = true ∧
    ∃ m1 m2 s1 s2 rest, r.drop c.hour.length = ':' :: m1 :: m2 :: ':' :: s1 :: s2 :: rest ∧
      c.minute = [m1, m2] ∧ c.second = [s1, s2] ∧
      isNd m1 = true ∧ isNd m2 = true ∧ isNd s1 = true ∧ isNd s2 = true := by
  unfold hmsFrom at h
  split at h
  · exact absurd h (by simp)
  · rename_i hlen
    split at h
    · rename_i m1 m2 s1 s2 rest heq
      unfold hmsAfterSeconds at h
      split at h
      · rename_i hdig
        have hht : c.hour = r.takeWhile isNd ∧ c.neg = neg ∧
            c.minute = [m1, m2] ∧ c.second = [s1, s2] := by
          split at h
          · obtain rfl := Option.some.inj h
            exact ⟨rfl, rfl, rfl, rfl⟩
          · split at h
            · obtain rfl := Option.some.inj h
              exact ⟨rfl, rfl, rfl, rfl⟩
            · exact absurd h (by simp)
          · exact absurd h (by simp)
        refine ⟨hht.2.1, hht.1, ?_, ?_, ?_, m1, m2, s1, s2, rest, ?_, hht.2.2.1, hht.2.2.2,
          hdig.1, hdig.2.1, hdig.2.2.1, hdig.2.2.2⟩
        · rw [hht.1]
          intro hnil
          rw [hnil] at hlen
          simp at hlen
        · rw [hht.1]
          omega
        · rw [hht.1]
          exact List.all_eq_true.mpr (fun x hx => List.mem_takeWhile_imp hx)
        · rw [hht.1]
          exact heq
      · exact absurd h (by simp)
    · exact absurd h (by simp)

theorem hmCaptures_colon_mem {s : List Char} {c : HmCaps} (h : hmCaptures s = some c) :
    ':' ∈ s := by
  obtain ⟨-, -, -, -, -, m1, m2, rest, heq, -⟩ := hmFrom_inv h
  exact stripSign_mem (List.mem_of_mem_drop (heq ▸ List.mem_cons_self ':' _))

theorem hmsCaptures_colon_mem {s : List Char} {c : HmsCaps} (h : hmsCaptures s = some c) :
    ':' ∈ s := by
  obtain ⟨-, -, -, -, -, m1, m2, s1, s2, rest, heq, -⟩ := hmsFrom_inv h
  exact stripSign_mem (List.mem_of_mem_drop (heq ▸ List.mem_cons_self ':' _))

theorem hms_some_imp_hm_none {s : List Char} {c : HmsCaps} (h : hmsCaptures s = some c) :
    hmCaptures s = none := by
  obtain ⟨-, hhour, -, hlen2, -, m1, m2, s1, s2, rest, heq, -⟩ := hmsFrom_inv h
  rw [hhour] at heq hlen2
  unfold hmCaptures hmFrom
  split
  · rfl
  · rw [heq]
    split
    · rename_i m1a m2a resta heq2
      obtain ⟨rfl, rfl, rfl⟩ : m1a = m1 ∧ m2a = m2 ∧ resta = ':' :: s1 :: s2 :: rest := by
        injection heq2 with e1 e2
        injection e2 with e2 e3
        injection e3 with e3 e4
        exact ⟨e2.symm, e3.symm, e4.symm⟩
      unfold hmAfterMinutes
      split
      · rfl
      · rfl
    · rfl
theorem tsat_hm_parse {s : List Char} {c : HmCaps} {hv mv : Int} (h : hmCaptures s = some c)
    (hh : rustParseI8 c.hour = some hv) (hm : rustParseI8 c.minute = some mv) :
    TimeSpecAndType.from_str s =
      .ok ⟨.HoursMinutes (hv * hmSign c.neg) (mv * hmSign c.neg),
           (c.flag.bind parse_time_type).getD .Wall⟩ := by
  have hcol : ':' ∈ s := hmCaptures_colon_mem h
  have hsne : s ≠ "-".data := by
    intro hs
    rw [hs] at hcol
    exact absurd hcol (by decide)
  have hallf : (s.all fun ch => ch = '-' ∨ ch.isDigit) = false :=
    List.all_eq_false.mpr ⟨':', hcol, by decide⟩
  unfold TimeSpecAndType.from_str
  rw [if_neg hsne, hallf]
  simp only [Bool.false_eq_true, if_false]
  rw [h]
  simp only [hh, hm]

theorem tsat_hm_abort {s : List Char} {c : HmCaps} (h : hmCaptures s = some c)
    (hfail : rustParseI8 c.hour = none ∨ rustParseI8 c.minute = none) :
    TimeSpecAndType.from_str s = .abort := by
  have hcol : ':' ∈ s := hmCaptures_colon_mem h
  have hsne : s ≠ "-".data := by
    intro hs
    rw [hs] at hcol
    exact absurd hcol (by decide)
  have hallf : (s.all fun ch => ch = '-' ∨ ch.isDigit) = false :=
    List.all_eq_false.mpr ⟨':', hcol, by decide⟩
  unfold TimeSpecAndType.from_str
  rw [if_neg hsne, hallf]
  simp only [Bool.false_eq_true, if_false]
  rw [h]
  rcases hh : rustParseI8 c.hour with _ | hv <;> rcases hm : rustParseI8 c.minute with _ | mv
  · simp only [hh, hm]
  · simp only [hh, hm]
  · simp only [hh, hm]
  · rw [hh, hm] at hfail
    simp at hfail

theorem tsat_hm_ok {s : List Char} {c : HmCaps} (h : hmCaptures s = some c)
    (hha : c.hour.all Char.isDigit = true) (hmna : c.minute.all Char.isDigit = true) :
    TimeSpecAndType.from_str s =
      .ok ⟨.HoursMinutes ((digitsVal c.hour : Int) * hmSign c.neg)
             ((digitsVal c.minute : Int) * hmSign c.neg),
           (c.flag.bind parse_time_type).getD .Wall⟩ := by
  obtain ⟨-, -, hne, hlen, -, m1, m2, rest, heq, hmin, -, -⟩ := hmFrom_inv h
  have hhour : rustParseI8 c.hour = some ((digitsVal c.hour : Int)) :=
    rustParseI8_digits hne hha (by have := digitsVal_le_99 _ hha hlen; omega)
  have hlm : c.minute.length ≤ 2 := by
    rw [hmin]
    simp
  have hminute : rustParseI8 c.minute = some ((digitsVal c.minute : Int)) :=
    rustParseI8_digits (by rw [hmin]; simp) hmna
      (by have := digitsVal_le_99 _ hmna hlm; omega)
  exact tsat_hm_parse h hhour hminute

theorem tsat_hms_parse {s : List Char} {c : HmsCaps} {hv mv sv : Int}
    (h : hmsCaptures s = some c)
    (hh : rustParseI8 c.hour = some hv) (hm : rustParseI8 c.minute = some mv)
    (hsec : rustParseI8 c.second = some sv) :
    TimeSpecAndType.from_str s =
      .ok ⟨.HoursMinutesSeconds (hv * hmSign c.neg) (mv * hmSign c.neg) (sv * hmSign c.neg),
           (c.flag.bind parse_time_type).getD .Wall⟩ := by
  have hcol : ':' ∈ s := hmsCaptures_colon_mem h
  have hmn : hmCaptures s = none := hms_some_imp_hm_none h
  have hsne : s ≠ "-".data := by
    intro hs
    rw [hs] at hcol
    exact absurd hcol (by decide)
  have hallf : (s.all fun ch => ch = '-' ∨ ch.isDigit) = false :=
    List.all_eq_false.mpr ⟨':', hcol, by decide⟩
  unfold TimeSpecAndType.from_str
  rw [if_neg hsne, hallf]
  simp only [Bool.false_eq_true, if_false]
  rw [hmn, h]
  simp only [hh, hm, hsec]

theorem tsat_hms_abort {s : List Char} {c : HmsCaps} (h : hmsCaptures s = some c)
    (hfail : rustParseI8 c.hour = none ∨ rustParseI8 c.minute = none ∨
      rustParseI8 c.second = none) :
    TimeSpecAndType.from_str s = .abort := by
  have hcol : ':' ∈ s := hmsCaptures_colon_mem h
  have hmn : hmCaptures s = none := hms_some_imp_hm_none h
  have hsne : s ≠ "-".data := by
    intro hs
    rw [hs] at hcol
    exact absurd hcol (by decide)
  have hallf : (s.all fun ch => ch = '-' ∨ ch.isDigit) = false :=
    List.all_eq_false.mpr ⟨':', hcol, by decide⟩
  unfold TimeSpecAndType.from_str
  rw [if_neg hsne, hallf]
  simp only [Bool.false_eq_true, if_false]
  rw [hmn, h]
  rcases hh : rustParseI8 c.hour with _ | hv <;>
    rcases hm : rustParseI8 c.minute with _ | mv <;>
    rcases hsec : rustParseI8 c.second with _ | sv
  · simp only [hh, hm, hsec]
  · simp only [hh, hm, hsec]
  · simp only [hh, hm, hsec]
  · simp only [hh, hm, hsec]
  · simp only [hh, hm, hsec]
  · simp only [hh, hm, hsec]
  · simp only [hh, hm, hsec]
  · rw [hh, hm, hsec] at hfail
    simp at hfail

theorem tsat_hms_ok {s : List Char} {c : HmsCaps} (h : hmsCaptures s = some c)
    (hha : c.hour.all Char.isDigit = true) (hmna : c.minute.all Char.isDigit = true)
    (hsa : c.second.all Char.isDigit = true) :
    TimeSpecAndType.from_str s =
      .ok ⟨.HoursMinutesSeconds ((digitsVal c.hour : Int) * hmSign c.neg)
             ((digitsVal c.minute : Int) * hmSign c.neg)
             ((digitsVal c.second : Int) * hmSign c.neg),
           (c.flag.bind parse_time_type).getD .Wall⟩ := by
  obtain ⟨-, -, hne, hlen, -, m1, m2, s1, s2, rest, heq, hmin, hsec, -, -, -, -⟩ :=
    hmsFrom_inv h
  have hhour : rustParseI8 c.hour = some ((digitsVal c.hour : Int)) :=
    rustParseI8_digits hne hha (by have := digitsVal_le_99 _ hha hlen; omega)
  have hlm : c.minute.length ≤ 2 := by
    rw [hmin]
    simp
  have hls : c.second.length ≤ 2 := by
    rw [hsec]
    simp
  have hminute : rustParseI8 c.minute = some ((digitsVal c.minute : Int)) :=
    rustParseI8_digits (by rw [hmin]; simp) hmna
      (by have := digitsVal_le_99 _ hmna hlm; omega)
  have hsecond : rustParseI8 c.second = some ((digitsVal c.second : Int)) :=
    rustParseI8_digits (by rw [hsec]; simp) hsa
      (by have := digitsVal_le_99 _ hsa hls; omega)
  exact tsat_hms_parse h hhour hminute hsecond

theorem takeWhile_digits_append {hs : List Char} (rest : List Char) (h1 : hs.all Char.isDigit = true) :
    (hs ++ ':' :: rest).takeWhile isNd = hs := by
  rw [List.takeWhile_append, takeWhile_all (all_isNd_of_digits h1), if_pos rfl,
    List.takeWhile_cons_of_neg (by decide)]
  simp

theorem stripSign_cons_digit {a : Char} {t : List Char} (h : a.isDigit = true) :
    stripSign (a :: t) = (false, a :: t) := by
  have hne : a ≠ '-' := digit_ne h (by decide)
  simp [stripSign, hne]

theorem stripSign_minus (t : List Char) : stripSign ('-' :: t) = (true, t) := by
  simp [stripSign]

theorem hmFrom_of_shape {hs : List Char} {m1 m2 : Char} (neg : Bool)
    (h1 : hs.all Char.isDigit = true) (hl : hs.length = 1 ∨ hs.length = 2)
    (hm1 : m1.isDigit = true) (hm2 : m2.isDigit = true) :
    hmFrom neg (hs ++ ':' :: m1 :: m2 :: []) = some ⟨neg, hs, [m1, m2], none⟩ := by
  have htw := takeWhile_digits_append (m1 :: m2 :: []) h1
  have hdrop : (hs ++ ':' :: m1 :: m2 :: []).drop hs.length = ':' :: m1 :: m2 :: [] :=
    List.drop_left hs _
  unfold hmFrom
  rw [htw, hdrop, if_neg (by omega)]
  show hmAfterMinutes neg hs m1 m2 [] = some ⟨neg, hs, [m1, m2], none⟩
  unfold hmAfterMinutes
  rw [if_pos ⟨isNd_of_isDigit hm1, isNd_of_isDigit hm2⟩]

theorem hmFrom_of_hms_shape {hs : List Char} {m1 m2 s1 s2 : Char} (neg : Bool)
    (h1 : hs.all Char.isDigit = true) (hl : hs.length = 1 ∨ hs.length = 2) :
    hmFrom neg (hs ++ ':' :: m1 :: m2 :: ':' :: s1 :: s2 :: []) = none := by
  have htw := takeWhile_digits_append (m1 :: m2 :: ':' :: s1 :: s2 :: []) h1
  have hdrop : (hs ++ ':' :: m1 :: m2 :: ':' :: s1 :: s2 :: []).drop hs.length =
      ':' :: m1 :: m2 :: ':' :: s1 :: s2 :: [] := List.drop_left hs _
  unfold hmFrom
  rw [htw, hdrop, if_neg (by omega)]
  show hmAfterMinutes neg hs m1 m2 (':' :: s1 :: s2 :: []) = none
  unfold hmAfterMinutes
  split
  · rfl
  · rfl

theorem hmsFrom_of_shape {hs : List Char} {m1 m2 s1 s2 : Char} (neg : Bool)
    (h1 : hs.all Char.isDigit = true) (hl : hs.length = 1 ∨ hs.length = 2)
    (hm1 : m1.isDigit = true) (hm2 : m2.isDigit = true)
    (hs1 : s1.isDigit = true) (hs2 : s2.isDigit = true) :
    hmsFrom neg (hs ++ ':' :: m1 :: m2 :: ':' :: s1 :: s2 :: []) =
      some ⟨neg, hs, [m1, m2], [s1, s2], none⟩ := by
  have htw := takeWhile_digits_append (m1 :: m2 :: ':' :: s1 :: s2 :: []) h1
  have hdrop : (hs ++ ':' :: m1 :: m2 :: ':' :: s1 :: s2 :: []).drop hs.length =
      ':' :: m1 :: m2 :: ':' :: s1 :: s2 :: [] := List.drop_left hs _
  unfold hmsFrom
  rw [htw, hdrop, if_neg (by omega)]
  show hmsAfterSeconds neg hs m1 m2 s1 s2 [] = some ⟨neg, hs, [m1, m2], [s1, s2], none⟩
  unfold hmsAfterSeconds
  rw [if_pos ⟨isNd_of_isDigit hm1, isNd_of_isDigit hm2, isNd_of_isDigit hs1, isNd_of_isDigit hs2⟩]

theorem exists_cons_of_len12 {hs : List Char} (hl : hs.length = 1 ∨ hs.length = 2) :
    ∃ a t, hs = a :: t := by
  rcases hl with h | h
  · obtain ⟨a, rfl⟩ := List.length_eq_one.mp h
    exact ⟨a, [], rfl⟩
  · obtain ⟨a, b, rfl⟩ := List.length_eq_two.mp h
    exact ⟨a, [b], rfl⟩

theorem hmCaptures_unsigned {hs : List Char} {m1 m2 : Char}
    (h1 : hs.all Char.isDigit = true) (hl : hs.length = 1 ∨ hs.length = 2)
    (hm1 : m1.isDigit = true) (hm2 : m2.isDigit = true) :
    hmCaptures (hs ++ ':' :: m1 :: m2 :: []) = some ⟨false, hs, [m1, m2], none⟩ := by
  obtain ⟨a, t, rfl⟩ := exists_cons_of_len12 hl
  have ha : a.isDigit = true := by
    simp at h1
    exact h1.1
  unfold hmCaptures
  rw [List.cons_append, stripSign_cons_digit ha, ← List.cons_append]
  exact hmFrom_of_shape false h1 hl hm1 hm2

theorem hmCaptures_signed {hs : List Char} {m1 m2 : Char}
    (h1 : hs.all Char.isDigit = true) (hl : hs.length = 1 ∨ hs.length = 2)
    (hm1 : m1.isDigit = true) (hm2 : m2.isDigit = true) :
    hmCaptures ('-' :: (hs ++ ':' :: m1 :: m2 :: [])) = some ⟨true, hs, [m1, m2], none⟩ := by
  unfold hmCaptures
  rw [stripSign_minus]
  exact hmFrom_of_shape true h1 hl hm1 hm2

theorem hmsCaptures_unsigned {hs : List Char} {m1 m2 s1 s2 : Char}
    (h1 : hs.all Char.isDigit = true) (hl : hs.length = 1 ∨ hs.length = 2)
    (hm1 : m1.isDigit = true) (hm2 : m2.isDigit = true)
    (hs1 : s1.isDigit = true) (hs2 : s2.isDigit = true) :
    hmsCaptures (hs ++ ':' :: m1 :: m2 :: ':' :: s1 :: s2 :: []) =
      some ⟨false, hs, [m1, m2], [s1, s2], none⟩ := by
  obtain ⟨a, t, rfl⟩ := exists_cons_of_len12 hl
  have ha : a.isDigit = true := by
    simp at h1
    exact h1.1
  unfold hmsCaptures
  rw [List.cons_append, stripSign_cons_digit ha, ← List.cons_append]
  exact hmsFrom_of_shape false h1 hl hm1 hm2 hs1 hs2

theorem hmsCaptures_signed {hs : List Char} {m1 m2 s1 s2 : Char}
    (h1 : hs.all Char.isDigit = true) (hl : hs.length = 1 ∨ hs.length = 2)
    (hm1 : m1.isDigit = true) (hm2 : m2.isDigit = true)
    (hs1 : s1.isDigit = true) (hs2 : s2.isDigit = true) :
    hmsCaptures ('-' :: (hs ++ ':' :: m1 :: m2 :: ':' :: s1 :: s2 :: [])) =
      some ⟨true, hs, [m1, m2], [s1, s2], none⟩ := by
  unfold hmsCaptures
  rw [stripSign_minus]
  exact hmsFrom_of_shape true h1 hl hm1 hm2 hs1 hs2

/-! Claim theorems. -/

theorem days_in_month_pos (y : Int) (m : Month) : 0 < days_in_month y m := by
  cases m
  all_goals simp [days_in_month]
  split
  · norm_num
  · norm_num

/-- C2: a time field `H:MM` (hour one or two digits, minute two digits)
with a leading `-` parses to `HoursMinutes(-H, -MM)` — the sign is
applied jointly to every component — and `H:MM:SS` with a leading `-`
parses to `HoursMinutesSeconds(-H, -MM, -SS)`; without the sign all
components are positive.  The time type is Wall in all four cases. -/
theorem claim2_time_sign_joint (hs : List Char) (m1 m2 s1 s2 : Char)
    (h1 : hs.all Char.isDigit = true) (hl : hs.length = 1 ∨ hs.length = 2)
    (hm1 : m1.isDigit = true) (hm2 : m2.isDigit = true)
    (hs1 : s1.isDigit = true) (hs2 : s2.isDigit = true) :
    TimeSpecAndType.from_str ('-' :: (hs ++ ':' :: m1 :: m2 :: [])) =
      .ok ⟨.HoursMinutes (-(digitsVal hs : Int)) (-(digitsVal [m1, m2] : Int)), .Wall⟩ ∧
    TimeSpecAndType.from_str (hs ++ ':' :: m1 :: m2 :: []) =
      .ok ⟨.HoursMinutes (digitsVal hs : Int) (digitsVal [m1, m2] : Int), .Wall⟩ ∧
    TimeSpecAndType.from_str ('-' :: (hs ++ ':' :: m1 :: m2 :: ':' :: s1 :: s2 :: [])) =
      .ok ⟨.HoursMinutesSeconds (-(digitsVal hs : Int)) (-(digitsVal [m1, m2] : Int))
        (-(digitsVal [s1, s2] : Int)), .Wall⟩ ∧
    TimeSpecAndType.from_str (hs ++ ':' :: m1 :: m2 :: ':' :: s1 :: s2 :: []) =
      .ok ⟨.HoursMinutesSeconds (digitsVal hs : Int) (digitsVal [m1, m2] : Int)
        (digitsVal [s1, s2] : Int), .Wall⟩ := by
  refine ⟨?_, ?_, ?_, ?_⟩
  · rw [tsat_hm_ok (hmCaptures_signed h1 hl hm1 hm2) h1 (by simp [hm1, hm2])]
    simp [hmSign]
  · rw [tsat_hm_ok (hmCaptures_unsigned h1 hl hm1 hm2) h1 (by simp [hm1, hm2])]
    simp [hmSign]
  · rw [tsat_hms_ok (hmsCaptures_signed h1 hl hm1 hm2 hs1 hs2) h1 (by simp [hm1, hm2])
      (by simp [hs1, hs2])]
    simp [hmSign]
  · rw [tsat_hms_ok (hmsCaptures_unsigned h1 hl hm1 hm2 hs1 hs2) h1 (by simp [hm1, hm2])
      (by simp [hs1, hs2])]
    simp [hmSign]

/-- Witness for C2 at the concrete inputs `-2:30` and `2:30`. -/
theorem claim2_time_sign_joint_witness :
    TimeSpecAndType.from_str "-2:30".data = .ok ⟨.HoursMinutes (-2) (-30), .Wall⟩ ∧
    TimeSpecAndType.from_str "2:30".data = .ok ⟨.HoursMinutes 2 30, .Wall⟩ := by
  have h := claim2_time_sign_joint ['2'] '3' '0' '0' '0' (by decide) (by decide)
    (by decide) (by decide) (by decide) (by decide)
  exact ⟨h.1, h.2.1⟩

/-- C4 counterexample: resolving a change time whose year is
`Minimum` aborts the process (the `unreachable!` arm); it does not
return an `UnresolvedYearBound` error — no such error variant exists
in the code, whose only error value is `Error::Fail`. -/
theorem claim4_unbounded_year_cx :
    ChangeTime.to_timestamp (.UntilYear .Minimum) = .abort := rfl

/-- C4 (amended): for every ChangeTime whose YearSpec is Minimum or
Maximum, `to_timestamp` aborts (the source's `unreachable!`), rather
than returning a value or an error. -/
theorem claim4_unbounded_year_aborts (ct : ChangeTime)
    (h : ct.yearSpec = .Minimum ∨ ct.yearSpec = .Maximum) :
    ct.to_timestamp = .abort := by
  cases ct with
  | UntilYear y =>
    cases y with
    | Minimum => rfl
    | Maximum => rfl
    | Number n => simp [ChangeTime.yearSpec] at h
  | UntilMonth y m =>
    cases y with
    | Minimum => rfl
    | Maximum => rfl
    | Number n => simp [ChangeTime.yearSpec] at h
  | UntilDay y m d =>
    cases y with
    | Minimum => rfl
    | Maximum => rfl
    | Number n => simp [ChangeTime.yearSpec] at h
  | UntilTime y m d t =>
    cases y with
    | Minimum => rfl
    | Maximum => rfl
    | Number n => simp [ChangeTime.yearSpec] at h

/-- Witness for C4 (amended) at the concrete change time
`UntilMonth Maximum January`. -/
theorem claim4_unbounded_year_aborts_witness :
    ChangeTime.to_timestamp (.UntilMonth .Maximum ⟨.January⟩) = .abort :=
  claim4_unbounded_year_aborts _ (Or.inr rfl)

/-- C5 counterexample: `LastOnOrBefore(Sunday, 1)` in October 1971
aborts (the `expect` of `find_weekday` fires, since no day numbered
below 1 exists); it does not return a `WeekdayNotFound` error — no
such error variant exists in the code. -/
theorem claim5_weekday_not_found_cx :
    DaySpec.to_concrete_date (.LastOnOrBefore ⟨.Sunday⟩ 1) 1971 .October = .abort := by
  decide

/-- C5 (amended): whenever no day numbered at most `n` in the given
month falls on the requested weekday, resolving `LastOnOrBefore(w, n)`
aborts the process (the `expect` of `find_weekday`), rather than
raising a `WeekdayNotFound` error. -/
theorem mem_monthDayList {y : Int} {m : Month} {x : Int} :
    x ∈ monthDayList y m ↔ 1 ≤ x ∧ x ≤ days_in_month y m := by
  have hpos := days_in_month_pos y m
  have hd : ((days_in_month y m).toNat : Int) = days_in_month y m :=
    Int.toNat_of_nonneg (by omega)
  unfold monthDayList
  rw [List.mem_map]
  constructor
  · rintro ⟨i, hi, rfl⟩
    rw [List.mem_range] at hi
    have hi2 : (i : Int) < ((days_in_month y m).toNat : Int) := by exact_mod_cast hi
    push_cast
    omega
  · rintro ⟨h1, h2⟩
    refine ⟨(x - 1).toNat, ?_, ?_⟩
    · rw [List.mem_range]
      have hx : ((x - 1).toNat : Int) = x - 1 := Int.toNat_of_nonneg (by omega)
      omega
    · have hx : ((x - 1).toNat : Int) = x - 1 := Int.toNat_of_nonneg (by omega)
      push_cast
      omega

theorem claim5_last_on_or_before_aborts (w : WeekdaySpec) (n y : Int) (m : Month)
    (h : ∀ d : Int, 1 ≤ d → d ≤ days_in_month y m → d ≤ n → weekday_of y m d ≠ w.weekday) :
    DaySpec.to_concrete_date (.LastOnOrBefore w n) y m = .abort := by
  have hstep : DaySpec.to_concrete_date (.LastOnOrBefore w n) y m =
      DaySpec.find_weekday w y m
        ((monthDayList y m).reverse.filter (fun x => decide (x < n))) := rfl
  have hnone : ((monthDayList y m).reverse.filter (fun x => decide (x < n))).find?
      (fun d => weekday_of y m d == w.weekday) = none := by
    rw [List.find?_eq_none]
    intro x hx
    rw [List.mem_filter, List.mem_reverse, mem_monthDayList] at hx
    obtain ⟨⟨h1, h2⟩, hlt⟩ := hx
    have hlt2 : x < n := of_decide_eq_true hlt
    intro hb
    exact h x h1 h2 (by omega) (by simpa using hb)
  rw [hstep]
  unfold DaySpec.find_weekday
  rw [hnone]

/-- Witness for C5 (amended): January 2000 begins on a Saturday, so no
day numbered at most 1 is a Monday. -/
theorem claim5_last_on_or_before_aborts_witness :
    DaySpec.to_concrete_date (.LastOnOrBefore ⟨.Monday⟩ 1) 2000 .January = .abort := by
  apply claim5_last_on_or_before_aborts
  intro d h1 h2 h3
  have hd : d = 1 := le_antisymm h3 h1
  subst hd
  decide

/-- C10: the plain TimeSpec parser (used for the Zone GMTOFF column in
`ZoneInfo::from_captures` and the Rule SAVE column in
`Rule::from_str`) succeeds exactly when TimeSpecAndType parsing
succeeds with the Wall time type; an explicit non-Wall flag (s, u, g,
z) is rejected with an error, as the concrete input `1:00s` shows. -/
theorem claim10_timespec_wall_only :
    (∀ s t, TimeSpec.from_str s = .ok t ↔ TimeSpecAndType.from_str s = .ok ⟨t, .Wall⟩) ∧
    (∀ s t ty, ty ≠ TimeType.Wall → TimeSpecAndType.from_str s = .ok ⟨t, ty⟩ →
      TimeSpec.from_str s = .fail) ∧
    TimeSpecAndType.from_str "1:00s".data = .ok ⟨.HoursMinutes 1 0, .Standard⟩ ∧
    TimeSpec.from_str "1:00s".data = .fail := by
  refine ⟨?_, ?_, by decide, by decide⟩
  · intro s t
    constructor
    · intro h
      unfold TimeSpec.from_str at h
      split at h
      · rename_i heq
        obtain rfl := PResult.ok.inj h
        exact heq
      · exact absurd h (by simp)
      · exact absurd h (by simp)
      · exact absurd h (by simp)
    · intro h
      unfold TimeSpec.from_str
      rw [h]
  · intro s t ty hty h
    unfold TimeSpec.from_str
    rw [h]
    cases ty with
    | Wall => exact absurd rfl hty
    | Standard => rfl
    | UTC => rfl

/-- Witness for C10 at the concrete input `2:00u`. -/
theorem claim10_timespec_wall_only_witness :
    TimeSpec.from_str "2:00u".data = .fail :=
  claim10_timespec_wall_only.2.1 ("2:00u").data (.HoursMinutes 2 0) .UTC
    (by decide) (by decide)

theorem ite_ne_abort {α : Type} {c : Prop} [Decidable c] {a b : PResult α}
    (ha : a ≠ .abort) (hb : b ≠ .abort) : (if c then a else b) ≠ .abort := by
  split
  · exact ha
  · exact hb

theorem monthOfName_ne_abort (l : List Char) : monthOfName l ≠ .abort := by
  unfold monthOfName
  repeat refine ite_ne_abort (by simp) ?_
  simp

theorem month_from_str_ne_abort (s : List Char) : MonthSpec.from_str s ≠ .abort :=
  monthOfName_ne_abort (asciiLower s)

theorem weekdayOfName_ne_abort (l : List Char) : weekdayOfName l ≠ .abort := by
  unfold weekdayOfName
  repeat refine ite_ne_abort (by simp) ?_
  simp

theorem weekday_from_str_ne_abort (s : List Char) : WeekdaySpec.from_str s ≠ .abort :=
  weekdayOfName_ne_abort (asciiLower s)

theorem timespec_abort_iff_tsat (s : List Char) :
    TimeSpec.from_str s = .abort ↔ TimeSpecAndType.from_str s = .abort := by
  constructor
  · intro h
    unfold TimeSpec.from_str at h
    split at h
    · simp at h
    · simp at h
    · simp at h
    · rename_i heq
      exact heq
  · intro h
    unfold TimeSpec.from_str
    rw [h]

theorem hm_none_of_no_colon {s : List Char} (h : ':' ∉ s) : hmCaptures s = none := by
  rcases hc : hmCaptures s with _ | c
  · rfl
  · exact absurd (hmCaptures_colon_mem hc) h

theorem yearspec_abort_iff (s : List Char) :
    YearSpec.from_str s = .abort ↔ s.all Char.isDigit = true ∧ rustParseI64 s = none := by
  constructor
  · intro h
    unfold YearSpec.from_str at h
    split at h
    · simp at h
    · split at h
      · simp at h
      · split at h
        · rename_i h1 h2 h3
          cases hp : rustParseI64 s with
          | some n =>
            rw [hp] at h
            simp at h
          | none => exact ⟨h3, rfl⟩
        · simp at h
  · rintro ⟨hall, hnone⟩
    have h1 : ¬(s = "min".data ∨ s = "minimum".data) := by
      rintro (rfl | rfl) <;> exact absurd hall (by decide)
    have h2 : ¬(s = "max".data ∨ s = "maximum".data) := by
      rintro (rfl | rfl) <;> exact absurd hall (by decide)
    unfold YearSpec.from_str
    rw [if_neg h1, if_neg h2, if_pos hall, hnone]

theorem tsat_abort_iff (s : List Char) :
    TimeSpecAndType.from_str s = .abort ↔
      (s ≠ "-".data ∧ (s.all fun c => c = '-' ∨ c.isDigit) = true ∧ rustParseI8 s = none) ∨
      (∃ c, hmCaptures s = some c ∧
        (rustParseI8 c.hour = none ∨ rustParseI8 c.minute = none)) ∨
      (hmCaptures s = none ∧ ∃ c, hmsCaptures s = some c ∧
        (rustParseI8 c.hour = none ∨ rustParseI8 c.minute = none ∨
          rustParseI8 c.second = none)) := by
  constructor
  · intro h
    rcases hc : hmCaptures s with _ | c
    · rcases hcs : hmsCaptures s with _ | c
      · unfold TimeSpecAndType.from_str at h
        rw [hc, hcs] at h
        split at h
        · simp at h
        · split at h
          · rename_i h1 h2
            cases hp : rustParseI8 s with
            | some n =>
              rw [hp] at h
              simp at h
            | none => exact Or.inl ⟨h1, h2, rfl⟩
          · simp at h
      · rcases hh : rustParseI8 c.hour with _ | hv
        · exact Or.inr (Or.inr ⟨rfl, c, rfl, Or.inl hh⟩)
        · rcases hm : rustParseI8 c.minute with _ | mv
          · exact Or.inr (Or.inr ⟨rfl, c, rfl, Or.inr (Or.inl hm)⟩)
          · rcases hsec : rustParseI8 c.second with _ | sv
            · exact Or.inr (Or.inr ⟨rfl, c, rfl, Or.inr (Or.inr hsec)⟩)
            · rw [tsat_hms_parse hcs hh hm hsec] at h
              simp at h
    · rcases hh : rustParseI8 c.hour with _ | hv
      · exact Or.inr (Or.inl ⟨c, rfl, Or.inl hh⟩)
      · rcases hm : rustParseI8 c.minute with _ | mv
        · exact Or.inr (Or.inl ⟨c, rfl, Or.inr hm⟩)
        · rw [tsat_hm_parse hc hh hm] at h
          simp at h
  · rintro (⟨h1, h2, h3⟩ | ⟨c, hc, hfail⟩ | ⟨hmn, c, hcs, hfail⟩)
    · unfold TimeSpecAndType.from_str
      rw [if_neg h1, if_pos h2, h3]
    · exact tsat_hm_abort hc hfail
    · exact tsat_hms_abort hcs hfail

theorem dayspec_abort_iff (s : List Char) :
    DaySpec.from_str s = .abort ↔
      (s.all Char.isDigit = true ∧ rustParseI8 s = none) ∨
      ((¬ s.all Char.isDigit = true) ∧ s.take 4 ≠ "last".data ∧
        ∃ pc, dayFieldCaptures s = some pc ∧
          (WeekdaySpec.from_str pc.weekday = .fail ∨ rustParseI8 pc.day = none)) := by
  constructor
  · intro h
    unfold DaySpec.from_str at h
    split at h
    · rename_i h1
      cases hp : rustParseI8 s with
      | some n =>
        rw [hp] at h
        simp at h
      | none => exact Or.inl ⟨h1, rfl⟩
    · split at h
      · rcases hw : WeekdaySpec.from_str (s.drop 4) with w | _ | _
        · rw [hw] at h
          simp at h
        · rw [hw] at h
          simp at h
        · exact absurd hw (weekday_from_str_ne_abort _)
      · rename_i h1 h2
        rcases hdc : dayFieldCaptures s with _ | pc
        · rw [hdc] at h
          simp at h
        · rw [hdc] at h
          have hdp : dayFieldParse pc = .abort := h
          unfold dayFieldParse at hdp
          rcases hw : WeekdaySpec.from_str pc.weekday with w | _ | _
          · cases hp : rustParseI8 pc.day with
            | some d =>
              cases hio : pc.isOnOrBefore with
              | true =>
                rw [hw, hp] at hdp
                simp [hio] at hdp
              | false =>
                rw [hw, hp] at hdp
                simp [hio] at hdp
            | none => exact Or.inr ⟨h1, h2, pc, rfl, Or.inr hp⟩
          · exact Or.inr ⟨h1, h2, pc, rfl, Or.inl hw⟩
          · exact absurd hw (weekday_from_str_ne_abort _)
  · rintro (⟨hall, hp⟩ | ⟨hall, hlast, pc, hdc, hsub⟩)
    · unfold DaySpec.from_str
      rw [if_pos hall, hp]
    · unfold DaySpec.from_str
      rw [if_neg hall, if_neg hlast, hdc]
      show dayFieldParse pc = .abort
      unfold dayFieldParse
      rcases hsub with hw | hp
      · rw [hw]
      · rcases hw : WeekdaySpec.from_str pc.weekday with w | _ | _
        · rw [hp]
        · rfl
        · exact absurd hw (weekday_from_str_ne_abort _)

theorem saving_abort_iff (s : List Char) :
    Saving.from_str s = .abort ↔
      ∃ c, hmCaptures s = some c ∧
        (rustParseI8 c.hour = none ∨ rustParseI8 c.minute = none) := by
  constructor
  · intro h
    unfold Saving.from_str at h
    split_ifs at h with h1 h2 h3
    obtain ⟨c, hc⟩ := Option.isSome_iff_exists.mp h3
    rcases hh : rustParseI8 c.hour with _ | hv
    · exact ⟨c, hc, Or.inl hh⟩
    · rcases hm : rustParseI8 c.minute with _ | mv
      · exact ⟨c, hc, Or.inr hm⟩
      · have hts : TimeSpec.from_str s ≠ .abort := by
          rw [Ne, timespec_abort_iff_tsat, tsat_hm_parse hc hh hm]
          simp
        rcases ht : TimeSpec.from_str s with t | _ | _
        · rw [ht] at h
          simp at h
        · rw [ht] at h
          simp at h
        · exact absurd ht hts
  · rintro ⟨c, hc, hfail⟩
    have hcol : ':' ∈ s := hmCaptures_colon_mem hc
    have h1 : s ≠ "-".data := by
      intro hs'
      rw [hs'] at hcol
      exact absurd hcol (by decide)
    have h2 : (s.all fun ch => ch = '-' ∨ ch = '_' ∨ isAlphabeticR ch) = false :=
      List.all_eq_false.mpr ⟨':', hcol, by decide⟩
    have h3 : TimeSpec.from_str s = .abort :=
      (timespec_abort_iff_tsat s).mpr (tsat_hm_abort hc hfail)
    unfold Saving.from_str
    rw [if_neg h1, h2, hc, h3]
    simp

/-- C3 counterexample: the field parsers are not panic-free — parsing
the token `1-2` as a time (it passes the digits-and-dashes pre-check
but is not an `i8` literal) aborts via `parse().unwrap()`, and a
19-digit year overflows `i64` and aborts, contradicting the claim
that no input string causes a panic. -/
theorem claim3_field_parsers_cx :
    TimeSpecAndType.from_str "1-2".data = .abort ∧
    YearSpec.from_str "9999999999999999999".data = .abort := by
  constructor
  · decide
  · decide

/-- C3 (amended): every field parser is a total pure function on
arbitrary input text — for every input it returns a Spec value, fails
with the Malformed error, or aborts; MonthSpec and WeekdaySpec never
abort, and the aborts of the remaining parsers are characterized
exactly: YearSpec aborts iff the input is all ASCII digits but not an
`i64` literal (empty or overflowing); TimeSpecAndType (and TimeSpec)
abort iff the input is made only of `-` and ASCII digits, differs from
the literal `-`, and is not an `i8` literal, or matches HM_FIELD or
HMS_FIELD with a captured digit group that does not parse as `i8` (a
group of non-ASCII decimal digits); DaySpec aborts iff the input is
all ASCII digits but not an `i8` literal, or is a DAY_FIELD match
whose weekday part is not a weekday name or whose day part does not
parse as `i8`; and Saving aborts iff the input matches HM_FIELD with a
captured digit group that does not parse as `i8`. -/
theorem claim3_field_parser_totality :
    (∀ s, MonthSpec.from_str s ≠ .abort) ∧
    (∀ s, WeekdaySpec.from_str s ≠ .abort) ∧
    (∀ s, YearSpec.from_str s = .abort ↔
      s.all Char.isDigit = true ∧ rustParseI64 s = none) ∧
    (∀ s, TimeSpecAndType.from_str s = .abort ↔
      (s ≠ "-".data ∧ (s.all fun c => c = '-' ∨ c.isDigit) = true ∧ rustParseI8 s = none) ∨
      (∃ c, hmCaptures s = some c ∧
        (rustParseI8 c.hour = none ∨ rustParseI8 c.minute = none)) ∨
      (hmCaptures s = none ∧ ∃ c, hmsCaptures s = some c ∧
        (rustParseI8 c.hour = none ∨ rustParseI8 c.minute = none ∨
          rustParseI8 c.second = none))) ∧
    (∀ s, TimeSpec.from_str s = .abort ↔ TimeSpecAndType.from_str s = .abort) ∧
    (∀ s, DaySpec.from_str s = .abort ↔
      (s.all Char.isDigit = true ∧ rustParseI8 s = none) ∨
      ((¬ s.all Char.isDigit = true) ∧ s.take 4 ≠ "last".data ∧
        ∃ pc, dayFieldCaptures s = some pc ∧
          (WeekdaySpec.from_str pc.weekday = .fail ∨ rustParseI8 pc.day = none))) ∧
    (∀ s, Saving.from_str s = .abort ↔
      ∃ c, hmCaptures s = some c ∧
        (rustParseI8 c.hour = none ∨ rustParseI8 c.minute = none)) :=
  ⟨month_from_str_ne_abort, weekday_from_str_ne_abort, yearspec_abort_iff,
   tsat_abort_iff, timespec_abort_iff_tsat, dayspec_abort_iff, saving_abort_iff⟩

theorem PResult.do_bind_eq_ok {α β : Type} {x : PResult α} {f : α → PResult β} {b : β}
    (h : x >>= f = .ok b) : ∃ a, x = .ok a ∧ f a = .ok b :=
  PResult.bind_eq_ok h

theorem optFields_prefixOk (opt : List (List Char)) :
    optionalPrefixOk (optFields opt).1 (optFields opt).2.1
      (optFields opt).2.2.1 (optFields opt).2.2.2 := by
  match opt with
  | [] => simp [optFields, optionalPrefixOk]
  | [a] => simp [optFields, optionalPrefixOk]
  | [a, b] => simp [optFields, optionalPrefixOk]
  | [a, b, c] => simp [optFields, optionalPrefixOk]
  | a :: b :: c :: d :: t => simp [optFields, optionalPrefixOk]

theorem zoneCaptures_inv {s : List Char} {c : ZoneCaps} (h : zoneCaptures s = some c) :
    (∃ d rest, s = 'Z' :: 'o' :: 'n' :: 'e' :: d :: rest ∧ isWs d = true) ∧
    optionalPrefixOk c.year c.month c.day c.time := by
  unfold zoneCaptures at h
  split at h
  · rename_i d rest
    split at h
    · rename_i hws
      split at h
      · rename_i n g r f opt heq
        split at h
        · obtain rfl := Option.some.inj h
          exact ⟨⟨d, rest, rfl, hws⟩, optFields_prefixOk opt⟩
        · exact absurd h (by simp)
      · exact absurd h (by simp)
    · exact absurd h (by simp)
  · exact absurd h (by simp)

theorem contCaptures_inv {s : List Char} {c : ContCaps} (h : contCaptures s = some c) :
    (∃ d rest, s = d :: rest ∧ isWs d = true) ∧
    optionalPrefixOk c.year c.month c.day c.time := by
  unfold contCaptures at h
  split at h
  · exact absurd h (by simp)
  · rename_i d rest
    split at h
    · rename_i hws
      split at h
      · rename_i g r f opt heq
        obtain rfl := Option.some.inj h
        exact ⟨⟨d, rest, rfl, hws⟩, optFields_prefixOk opt⟩
      · exact absurd h (by simp)
    · exact absurd h (by simp)

/-- C1: the optional year/month/day/time captures of every Zone and
Continuation line always form one of the five valid prefixes (so no
input ever exhibits columns out of prefix order, and the clause of the
claim about such inputs holds vacuously — indeed the aborting
`unreachable!` arm of the cascade, reached only when the year capture
is absent while a later capture is present, can never produce a
ZoneInfo); and when `ZoneInfo::from_captures` succeeds, its time field
is None or Some of the UntilYear / UntilMonth / UntilDay / UntilTime
variant matching exactly the optional columns supplied. -/
theorem claim1_zoneinfo_cascade :
    (∀ s c, zoneCaptures s = some c → optionalPrefixOk c.year c.month c.day c.time) ∧
    (∀ s c, contCaptures s = some c → optionalPrefixOk c.year c.month c.day c.time) ∧
    (∀ g r f om od ot zi, om.isSome = true ∨ od.isSome = true ∨ ot.isSome = true →
      ZoneInfo.from_captures g r f none om od ot ≠ .ok zi) ∧
    (∀ g r f zi, ZoneInfo.from_captures g r f none none none none = .ok zi →
      zi.time = none) ∧
    (∀ g r f y zi, ZoneInfo.from_captures g r f (some y) none none none = .ok zi →
      ∃ a, zi.time = some (.UntilYear a)) ∧
    (∀ g r f y m zi, ZoneInfo.from_captures g r f (some y) (some m) none none = .ok zi →
      ∃ a b, zi.time = some (.UntilMonth a b)) ∧
    (∀ g r f y m d zi,
      ZoneInfo.from_captures g r f (some y) (some m) (some d) none = .ok zi →
      ∃ a b dd, zi.time = some (.UntilDay a b dd)) ∧
    (∀ g r f y m d t zi,
      ZoneInfo.from_captures g r f (some y) (some m) (some d) (some t) = .ok zi →
      ∃ a b dd tt, zi.time = some (.UntilTime a b dd tt)) := by
  refine ⟨fun s c h => (zoneCaptures_inv h).2, fun s c h => (contCaptures_inv h).2,
    ?_, ?_, ?_, ?_, ?_, ?_⟩
  · intro g r f om od ot zi hsome h
    unfold ZoneInfo.from_captures at h
    obtain ⟨u, hu, h⟩ := PResult.do_bind_eq_ok h
    obtain ⟨sv, hsv, h⟩ := PResult.do_bind_eq_ok h
    rcases om with _ | mv
    · rcases od with _ | dv
      · rcases ot with _ | tv
        · rcases hsome with hx | hx | hx <;> simp at hx
        · simp [PResult.bind_def, PResult.bind] at h
      · simp [PResult.bind_def, PResult.bind] at h
    · simp [PResult.bind_def, PResult.bind] at h
  · intro g r f zi h
    unfold ZoneInfo.from_captures at h
    obtain ⟨u, hu, h⟩ := PResult.do_bind_eq_ok h
    obtain ⟨sv, hsv, h⟩ := PResult.do_bind_eq_ok h
    obtain ⟨t, ht, h⟩ := PResult.do_bind_eq_ok h
    obtain rfl : none = t := PResult.ok.inj ht
    obtain rfl := PResult.ok.inj h
    rfl
  · intro g r f y zi h
    unfold ZoneInfo.from_captures at h
    obtain ⟨u, hu, h⟩ := PResult.do_bind_eq_ok h
    obtain ⟨sv, hsv, h⟩ := PResult.do_bind_eq_ok h
    obtain ⟨ys, hys, h⟩ := PResult.do_bind_eq_ok h
    obtain ⟨t, ht, h⟩ := PResult.do_bind_eq_ok h
    obtain rfl : some (ChangeTime.UntilYear ys) = t := PResult.ok.inj ht
    obtain rfl := PResult.ok.inj h
    exact ⟨ys, rfl⟩
  · intro g r f y m zi h
    unfold ZoneInfo.from_captures at h
    obtain ⟨u, hu, h⟩ := PResult.do_bind_eq_ok h
    obtain ⟨sv, hsv, h⟩ := PResult.do_bind_eq_ok h
    obtain ⟨ys, hys, h⟩ := PResult.do_bind_eq_ok h
    obtain ⟨ms, hms, h⟩ := PResult.do_bind_eq_ok h
    obtain ⟨t, ht, h⟩ := PResult.do_bind_eq_ok h
    obtain rfl : some (ChangeTime.UntilMonth ys ms) = t := PResult.ok.inj ht
    obtain rfl := PResult.ok.inj h
    exact ⟨ys, ms, rfl⟩
  · intro g r f y m d zi h
    unfold ZoneInfo.from_captures at h
    obtain ⟨u, hu, h⟩ := PResult.do_bind_eq_ok h
    obtain ⟨sv, hsv, h⟩ := PResult.do_bind_eq_ok h
    obtain ⟨ys, hys, h⟩ := PResult.do_bind_eq_ok h
    obtain ⟨ms, hms, h⟩ := PResult.do_bind_eq_ok h
    obtain ⟨ds, hds, h⟩ := PResult.do_bind_eq_ok h
    obtain ⟨t, ht, h⟩ := PResult.do_bind_eq_ok h
    obtain rfl : some (ChangeTime.UntilDay ys ms ds) = t := PResult.ok.inj ht
    obtain rfl := PResult.ok.inj h
    exact ⟨ys, ms, ds, rfl⟩
  · intro g r f y m d t zi h
    unfold ZoneInfo.from_captures at h
    obtain ⟨u, hu, h⟩ := PResult.do_bind_eq_ok h
    obtain ⟨sv, hsv, h⟩ := PResult.do_bind_eq_ok h
    obtain ⟨ys, hys, h⟩ := PResult.do_bind_eq_ok h
    obtain ⟨ms, hms, h⟩ := PResult.do_bind_eq_ok h
    obtain ⟨ds, hds, h⟩ := PResult.do_bind_eq_ok h
    obtain ⟨ts, hts, h⟩ := PResult.do_bind_eq_ok h
    obtain ⟨tm, htm, h⟩ := PResult.do_bind_eq_ok h
    obtain rfl : some (ChangeTime.UntilTime ys ms ds ts) = tm := PResult.ok.inj htm
    obtain rfl := PResult.ok.inj h
    exact ⟨ys, ms, ds, ts, rfl⟩

/-- Witness for C1: a Zone line with only the year column present
yields an UntilYear change time. -/
theorem claim1_zoneinfo_cascade_witness :
    ∃ zi, ZoneInfo.from_captures "9:30".data "-".data "LMT".data
        (some "1971".data) none none none = .ok zi ∧
      ∃ a, zi.time = some (ChangeTime.UntilYear a) := by
  have hok : ZoneInfo.from_captures "9:30".data "-".data "LMT".data
      (some "1971".data) none none none =
      .ok ⟨.HoursMinutes 9 30, .NoSaving, "LMT".data,
        some (.UntilYear (.Number 1971))⟩ := by decide
  exact ⟨_, hok, claim1_zoneinfo_cascade.2.2.2.2.1 _ _ _ _ _ hok⟩

theorem ruleCaptures_inv {s : List Char} {c : RuleCaps} (h : ruleCaptures s = some c) :
    ∃ d rest, s = 'R' :: 'u' :: 'l' :: 'e' :: d :: rest ∧ isWs d = true := by
  unfold ruleCaptures at h
  split at h
  · rename_i d rest
    split at h
    · rename_i hws
      exact ⟨d, rest, rfl, hws⟩
    · exact absurd h (by simp)
  · exact absurd h (by simp)

/-- C6 counterexample: a rule line with ten fields after the keyword
(eleven tokens in total) still parses successfully — RULE_LINE has no
end anchor, so the trailing text is ignored — contradicting the claim
that parsing succeeds only with exactly nine fields. -/
theorem claim6_rule_line_cx :
    Rule.from_str ("Rule US 1967 1973 - Apr lastSun 2:00 1:00 D extra").data =
      .ok ⟨"US".data, .Number 1967, some (.Number 1973), ⟨.April⟩,
        .Last ⟨.Sunday⟩, ⟨.HoursMinutes 2 0, .Wall⟩, .HoursMinutes 1 0,
        some "D".data⟩ ∧
    (tokens ("Rule US 1967 1973 - Apr lastSun 2:00 1:00 D extra").data).length = 11 := by
  constructor
  · decide
  · decide

/-- C6 (amended): Rule parsing succeeds only on lines beginning with
the keyword `Rule` followed by AT LEAST nine whitespace-separated
fields — the first nine are used and trailing text is ignored; on a
successful parse the type field was `-` (ASCII hyphen) or the Unicode
hyphen U+2010 (any other type value makes the whole line fail to
parse), a letters field of `-` yields None, and a to-year of `only`
yields None. -/
theorem claim6_rule_line_shape :
    (∀ s r, Rule.from_str s = .ok r →
      ∃ c, ruleCaptures s = some c ∧
        (c.rtype = "-".data ∨ c.rtype = "\u2010".data) ∧
        (c.rto = "only".data → r.to_year = none) ∧
        (c.rto ≠ "only".data → ∃ y, r.to_year = some y) ∧
        (c.rletters = "-".data → r.letters = none) ∧
        (c.rletters ≠ "-".data → r.letters = some c.rletters) ∧
        r.name = c.rname) ∧
    (∀ s c, ruleCaptures s = some c →
      ¬(c.rtype = "-".data ∨ c.rtype = "\u2010".data) →
      ∀ r, Rule.from_str s ≠ .ok r) ∧
    (∀ s r, Rule.from_str s = .ok r →
      ∃ d rest, s = 'R' :: 'u' :: 'l' :: 'e' :: d :: rest ∧ isWs d = true) := by
  have hmain : ∀ s r, Rule.from_str s = .ok r →
      ∃ c, ruleCaptures s = some c ∧
        (c.rtype = "-".data ∨ c.rtype = "\u2010".data) ∧
        (c.rto = "only".data → r.to_year = none) ∧
        (c.rto ≠ "only".data → ∃ y, r.to_year = some y) ∧
        (c.rletters = "-".data → r.letters = none) ∧
        (c.rletters ≠ "-".data → r.letters = some c.rletters) ∧
        r.name = c.rname := by
    intro s r h
    unfold Rule.from_str at h
    rcases hrc : ruleCaptures s with _ | c
    · rw [hrc] at h
      simp at h
    · rw [hrc] at h
      have h2 : ruleFromCaps c = .ok r := h
      unfold ruleFromCaps at h2
      obtain ⟨fy, hfy, h2⟩ := PResult.do_bind_eq_ok h2
      by_cases honly : c.rto = "only".data
      · rw [if_pos honly] at h2
        obtain ⟨ty, hty, h2⟩ := PResult.do_bind_eq_ok h2
        obtain rfl : (none : Option YearSpec) = ty := PResult.ok.inj hty
        split at h2
        · rename_i htype
          obtain ⟨mo, hmo, h2⟩ := PResult.do_bind_eq_ok h2
          obtain ⟨dy, hdy, h2⟩ := PResult.do_bind_eq_ok h2
          obtain ⟨tm, htm, h2⟩ := PResult.do_bind_eq_ok h2
          obtain ⟨ta, hta, h2⟩ := PResult.do_bind_eq_ok h2
          obtain rfl := PResult.ok.inj h2
          refine ⟨c, rfl, htype, fun _ => rfl, fun hne => absurd honly hne, ?_, ?_, rfl⟩
          · intro he
            simp [he]
          · intro hne
            simp [hne]
        · simp at h2
      · rw [if_neg honly] at h2
        obtain ⟨yv, hyv, h2⟩ := PResult.do_bind_eq_ok h2
        obtain ⟨ty, hty, h2⟩ := PResult.do_bind_eq_ok h2
        obtain rfl : some yv = ty := PResult.ok.inj hty
        split at h2
        · rename_i htype
          obtain ⟨mo, hmo, h2⟩ := PResult.do_bind_eq_ok h2
          obtain ⟨dy, hdy, h2⟩ := PResult.do_bind_eq_ok h2
          obtain ⟨tm, htm, h2⟩ := PResult.do_bind_eq_ok h2
          obtain ⟨ta, hta, h2⟩ := PResult.do_bind_eq_ok h2
          obtain rfl := PResult.ok.inj h2
          refine ⟨c, rfl, htype, fun he => absurd he honly, fun _ => ⟨yv, rfl⟩, ?_, ?_, rfl⟩
          · intro he
            simp [he]
          · intro hne
            simp [hne]
        · simp at h2
  refine ⟨hmain, ?_, ?_⟩
  · intro s c hrc hbad r h
    unfold Rule.from_str at h
    rw [hrc] at h
    have h2 : ruleFromCaps c = .ok r := h
    unfold ruleFromCaps at h2
    obtain ⟨fy, hfy, h2⟩ := PResult.do_bind_eq_ok h2
    by_cases honly : c.rto = "only".data
    · rw [if_pos honly] at h2
      obtain ⟨ty, hty, h2⟩ := PResult.do_bind_eq_ok h2
      split at h2
      · rename_i htype
        exact hbad htype
      · simp at h2
    · rw [if_neg honly] at h2
      obtain ⟨yv, hyv, h2⟩ := PResult.do_bind_eq_ok h2
      obtain ⟨ty, hty, h2⟩ := PResult.do_bind_eq_ok h2
      split at h2
      · rename_i htype
        exact hbad htype
      · simp at h2
  · intro s r h
    obtain ⟨c, hc, -⟩ := hmain s r h
    exact ruleCaptures_inv hc

/-- Witness for C6 (amended) at the Greece rule line of the test
suite: a to-year of `only` and a letters field of `-` both yield
None. -/
theorem claim6_rule_line_shape_witness :
    ∃ r, Rule.from_str ("Rule Greece 1976 only - Oct 10 2:00s 0 -").data = .ok r ∧
      r.to_year = none ∧ r.letters = none := by
  have h : Rule.from_str ("Rule Greece 1976 only - Oct 10 2:00s 0 -").data =
      .ok ⟨"Greece".data, .Number 1976, none, ⟨.October⟩, .Ordinal 10,
        ⟨.HoursMinutes 2 0, .Standard⟩, .Hours 0, none⟩ := by decide
  obtain ⟨c, hc, -, honly, -, hdash, -, -⟩ := claim6_rule_line_shape.1 _ _ h
  have hc2 : ruleCaptures ("Rule Greece 1976 only - Oct 10 2:00s 0 -").data =
      some ⟨"Greece".data, "1976".data, "only".data, "-".data, "Oct".data,
        "10".data, "2:00s".data, "0".data, "-".data⟩ := by decide
  rw [hc2] at hc
  obtain rfl := Option.some.inj hc
  exact ⟨_, h, honly (by decide), hdash (by decide)⟩

/-- C7 counterexample: the `h:mm:ss` form `1:00:00` is a valid
TimeSpec shape but is rejected by Saving parsing (the code gates the
OneOff case on the HM_FIELD regex only), and so is the bare hours
token `5`; this contradicts the claim that every textual TimeSpec
shape is accepted as a OneOff. -/
theorem claim7_saving_grammar_cx :
    Saving.from_str "1:00:00".data = .fail ∧ Saving.from_str "5".data = .fail := by
  constructor
  · decide
  · decide

/-- C7 (amended): Saving maps the literal `-` to NoSaving; any other
token made of `-`, `_` and alphabetic characters to Multiple; a token
matching the H:MM shape (HM_FIELD) whose captured digit groups parse
as `i8` and whose flag is absent or `w` to OneOff of the corresponding
Wall-clock TimeSpec (necessarily a HoursMinutes value, and every
OneOff result arises this way); a HM_FIELD match whose TimeSpec parse
fails — an explicit non-Wall flag — to the Malformed error; and
everything else to the Malformed error: in particular bare digit
tokens, the h:mm:ss shape, and any colon-free token containing a
character that is not a letter, a combining mark, `-` or `_`. -/
theorem claim7_saving_grammar :
    Saving.from_str "-".data = .ok .NoSaving ∧
    (∀ s, s ≠ "-".data → (s.all fun c => c = '-' ∨ c = '_' ∨ isAlphabeticR c) = true →
      Saving.from_str s = .ok (.Multiple s)) ∧
    (∀ s c hv mv, hmCaptures s = some c → rustParseI8 c.hour = some hv →
      rustParseI8 c.minute = some mv →
      (c.flag.bind parse_time_type).getD .Wall = .Wall →
      Saving.from_str s =
        .ok (.OneOff (.HoursMinutes (hv * hmSign c.neg) (mv * hmSign c.neg)))) ∧
    (∀ s c, hmCaptures s = some c → TimeSpec.from_str s = .fail →
      Saving.from_str s = .fail) ∧
    (∀ s t, Saving.from_str s = .ok (.OneOff t) →
      (∃ c, hmCaptures s = some c) ∧ TimeSpec.from_str s = .ok t ∧
        ∃ h m, t = .HoursMinutes h m) ∧
    (∀ s, s ≠ [] → s.all Char.isDigit = true → Saving.from_str s = .fail) ∧
    (∀ s c, hmsCaptures s = some c → Saving.from_str s = .fail) ∧
    (∀ s, ':' ∉ s →
      (∃ ch ∈ s, ch ≠ '-' ∧ ch ≠ '_' ∧ isAlphabeticR ch = false ∧ isMarkR ch = false) →
      Saving.from_str s = .fail) := by
  refine ⟨by decide, ?_, ?_, ?_, ?_, ?_, ?_, ?_⟩
  · intro s h1 h2
    unfold Saving.from_str
    rw [if_neg h1, if_pos h2]
  · intro s c hv mv hc hh hm hflag
    have hcol : ':' ∈ s := hmCaptures_colon_mem hc
    have h1 : s ≠ "-".data := by
      intro hs'
      rw [hs'] at hcol
      exact absurd hcol (by decide)
    have h2 : (s.all fun ch => ch = '-' ∨ ch = '_' ∨ isAlphabeticR ch) = false :=
      List.all_eq_false.mpr ⟨':', hcol, by decide⟩
    have hts : TimeSpec.from_str s =
        .ok (.HoursMinutes (hv * hmSign c.neg) (mv * hmSign c.neg)) := by
      unfold TimeSpec.from_str
      rw [tsat_hm_parse hc hh hm, hflag]
    unfold Saving.from_str
    rw [if_neg h1, h2, hc, hts]
    simp
  · intro s c hc htf
    have hcol : ':' ∈ s := hmCaptures_colon_mem hc
    have h1 : s ≠ "-".data := by
      intro hs'
      rw [hs'] at hcol
      exact absurd hcol (by decide)
    have h2 : (s.all fun ch => ch = '-' ∨ ch = '_' ∨ isAlphabeticR ch) = false :=
      List.all_eq_false.mpr ⟨':', hcol, by decide⟩
    unfold Saving.from_str
    rw [if_neg h1, h2, hc, htf]
    simp
  · intro s t h
    unfold Saving.from_str at h
    split_ifs at h with h1 h2 h3
    · simp at h
    · simp at h
    · obtain ⟨c, hc⟩ := Option.isSome_iff_exists.mp h3
      rcases ht : TimeSpec.from_str s with tv | _ | _
      · rw [ht] at h
        simp only [PResult.ok.injEq] at h
        obtain rfl : tv = t := Saving.OneOff.inj h
        refine ⟨⟨c, hc⟩, rfl, ?_⟩
        rcases hh : rustParseI8 c.hour with _ | hv
        · have habort := (timespec_abort_iff_tsat s).mpr (tsat_hm_abort hc (Or.inl hh))
          rw [ht] at habort
          simp at habort
        · rcases hm : rustParseI8 c.minute with _ | mv
          · have habort := (timespec_abort_iff_tsat s).mpr (tsat_hm_abort hc (Or.inr hm))
            rw [ht] at habort
            simp at habort
          · have hts := tsat_hm_parse hc hh hm
            unfold TimeSpec.from_str at ht
            rw [hts] at ht
            rcases hflag : (c.flag.bind parse_time_type).getD TimeType.Wall with _ | _ | _
            · rw [hflag] at ht
              obtain rfl := PResult.ok.inj ht
              exact ⟨_, _, rfl⟩
            · rw [hflag] at ht
              simp at ht
            · rw [hflag] at ht
              simp at ht
      · rw [ht] at h
        simp at h
      · rw [ht] at h
        simp at h
  · intro s hne hall
    have h1 : s ≠ "-".data := by
      intro hs'
      rw [hs'] at hall
      exact absurd hall (by decide)
    have h2 : (s.all fun c => c = '-' ∨ c = '_' ∨ isAlphabeticR c) = false := by
      rcases s with _ | ⟨a, t⟩
      · exact absurd rfl hne
      · have ha : a.isDigit = true := by
          simp at hall
          exact hall.1
        refine List.all_eq_false.mpr ⟨a, by simp, ?_⟩
        simp only [decide_eq_true_eq, not_or]
        refine ⟨digit_ne ha (by decide), digit_ne ha (by decide), ?_⟩
        rw [digit_not_alphabeticR ha]
        simp
    have h3 : hmCaptures s = none := by
      rcases s with _ | ⟨a, t⟩
      · exact absurd rfl hne
      · have ha : a.isDigit = true := by
          simp at hall
          exact hall.1
        unfold hmCaptures
        rw [stripSign_cons_digit ha]
        unfold hmFrom
        rw [takeWhile_all (all_isNd_of_digits hall)]
        by_cases hlen : (a :: t).length = 0 ∨ 2 < (a :: t).length
        · rw [if_pos hlen]
        · rw [if_neg hlen, List.drop_length]
    unfold Saving.from_str
    rw [if_neg h1, h2, h3]
    simp
  · intro s c h
    have hmn : hmCaptures s = none := hms_some_imp_hm_none h
    have hcol : ':' ∈ s := hmsCaptures_colon_mem h
    have h1 : s ≠ "-".data := by
      intro hs'
      rw [hs'] at hcol
      exact absurd hcol (by decide)
    have h2 : (s.all fun ch => ch = '-' ∨ ch = '_' ∨ isAlphabeticR ch) = false :=
      List.all_eq_false.mpr ⟨':', hcol, by decide⟩
    unfold Saving.from_str
    rw [if_neg h1, h2, hmn]
    simp
  · intro s hcolon hw
    obtain ⟨ch, hmem, hd, hu, hA, -⟩ := hw
    have h1 : s ≠ "-".data := by
      intro hs'
      rw [hs'] at hmem
      simp at hmem
      exact hd hmem
    have h2 : (s.all fun c => c = '-' ∨ c = '_' ∨ isAlphabeticR c) = false := by
      refine List.all_eq_false.mpr ⟨ch, hmem, ?_⟩
      simp only [decide_eq_true_eq, not_or]
      refine ⟨hd, hu, ?_⟩
      rw [hA]
      simp
    have h3 : hmCaptures s = none := hm_none_of_no_colon hcolon
    unfold Saving.from_str
    rw [if_neg h1, h2, h3]
    simp

/-- Witness for C7 (amended): `1:00` parses as OneOff of the one-hour
Wall TimeSpec, `Aus` as Multiple, while `1:00s` (an explicit non-Wall
flag) and `abc5` (colon-free with a non-letter character) are
Malformed. -/
theorem claim7_saving_grammar_witness :
    Saving.from_str "1:00".data = .ok (.OneOff (.HoursMinutes 1 0)) ∧
    Saving.from_str "Aus".data = .ok (.Multiple "Aus".data) ∧
    Saving.from_str "1:00s".data = .fail ∧
    Saving.from_str "abc5".data = .fail := by
  refine ⟨?_, claim7_saving_grammar.2.1 ("Aus").data (by decide) (by decide), ?_, ?_⟩
  · have h := claim7_saving_grammar.2.2.1 ("1:00").data ⟨false, ['1'], ['0', '0'], none⟩
      1 0 (by decide) (by decide) (by decide) (by decide)
    simpa [hmSign] using h
  · exact claim7_saving_grammar.2.2.2.1 ("1:00s").data ⟨false, ['1'], ['0', '0'], some 's'⟩
      (by decide) (by decide)
  · exact claim7_saving_grammar.2.2.2.2.2.2.2 ("abc5").data (by decide)
      ⟨'5', by decide, by decide, by decide, by decide, by decide⟩

theorem emptyLineMatch_cons_false {a : Char} {rest : List Char}
    (ha1 : isWs a = false) (ha2 : a ≠ '#') : emptyLineMatch (a :: rest) = false := by
  unfold emptyLineMatch
  rw [List.dropWhile_cons, if_neg (by simp [ha1])]
  split
  · rename_i heq
    exact absurd heq (by simp)
  · rename_i r2 heq
    injection heq with e1 e2
    exact absurd e1 ha2
  · rfl

theorem zoneCaptures_none_of_head {a : Char} {t : List Char} (ha : a ≠ 'Z') :
    zoneCaptures (a :: t) = none := by
  unfold zoneCaptures
  split
  · rename_i d rest heq
    injection heq with e1 e2
    exact absurd e1 ha
  · rfl

theorem ruleCaptures_none_of_head {a : Char} {t : List Char} (ha : a ≠ 'R') :
    ruleCaptures (a :: t) = none := by
  unfold ruleCaptures
  split
  · rename_i d rest heq
    injection heq with e1 e2
    exact absurd e1 ha
  · rfl

theorem linkCaptures_none_of_head {a : Char} {t : List Char} (ha : a ≠ 'L') :
    linkCaptures (a :: t) = none := by
  unfold linkCaptures
  split
  · rename_i d rest heq
    injection heq with e1 e2
    exact absurd e1 ha
  · rfl

theorem contCaptures_none_of_head {a : Char} {t : List Char} (ha : isWs a = false) :
    contCaptures (a :: t) = none := by
  rcases h2 : contCaptures (a :: t) with _ | c
  · rfl
  · obtain ⟨⟨d, rest, heq, hws⟩, -⟩ := contCaptures_inv h2
    injection heq with e1 e2
    rw [← e1] at hws
    rw [hws] at ha
    cases ha

theorem linkCaptures_inv {s : List Char} {c : List Char × List Char}
    (h : linkCaptures s = some c) :
    ∃ d rest, s = 'L' :: 'i' :: 'n' :: 'k' :: d :: rest ∧ isWs d = true := by
  unfold linkCaptures at h
  split at h
  · rename_i d rest
    split at h
    · rename_i hws
      exact ⟨d, rest, rfl, hws⟩
    · exact absurd h (by simp)
  · exact absurd h (by simp)

theorem zone_fail_of_captures_none {s : List Char} (h : zoneCaptures s = none) :
    Zone.from_str s = .fail := by
  unfold Zone.from_str
  rw [h]

theorem rule_fail_of_captures_none {s : List Char} (h : ruleCaptures s = none) :
    Rule.from_str s = .fail := by
  unfold Rule.from_str
  rw [h]

/-- C8: the line classifier tries the blank/comment recognizer, then
Zone, then Continuation, then Rule, then Link, in that fixed order,
and returns the first success: a blank/comment match is always Space;
a line Zone parses is always classified Zone (never Continuation — in
fact no string matches both the ZONE_LINE and CONTINUATION_LINE
shapes, since one requires a leading `Z` and the other leading
whitespace); a non-blank line with continuation captures is classified
by the continuation field parse; a line Rule parses is classified
Rule; a line Link parses is classified Link.  Once a category's
keyword shape has matched, no other category can claim the line. -/
theorem claim8_classifier_order :
    (∀ s, emptyLineMatch s = true → Line.from_str s = .ok .Space) ∧
    (∀ s z, Zone.from_str s = .ok z → Line.from_str s = .ok (.Zone z)) ∧
    (∀ s c, emptyLineMatch s = false → contCaptures s = some c →
      Line.from_str s = (ZoneInfo.from_captures c.gmtoff c.rulessave c.format
        c.year c.month c.day c.time) >>= fun zi => pure (.Continuation zi)) ∧
    (∀ s r, Rule.from_str s = .ok r → Line.from_str s = .ok (.Rule r)) ∧
    (∀ s l, Link.from_str s = .ok l → Line.from_str s = .ok (.Link l)) ∧
    (∀ s c, zoneCaptures s = some c → contCaptures s = none) := by
  refine ⟨?_, ?_, ?_, ?_, ?_, ?_⟩
  · intro s h
    unfold Line.from_str
    rw [if_pos h]
  · intro s z h
    have hc : ∃ c, zoneCaptures s = some c := by
      unfold Zone.from_str at h
      rcases hzc : zoneCaptures s with _ | c
      · rw [hzc] at h
        simp at h
      · exact ⟨c, rfl⟩
    obtain ⟨c, hc⟩ := hc
    obtain ⟨⟨d, rest, rfl, hws⟩, -⟩ := zoneCaptures_inv hc
    have hemp : emptyLineMatch ('Z' :: 'o' :: 'n' :: 'e' :: d :: rest) = false :=
      emptyLineMatch_cons_false (by decide) (by decide)
    unfold Line.from_str
    rw [hemp]
    simp only [Bool.false_eq_true, if_false]
    rw [h]
  · intro s c hemp hcont
    obtain ⟨⟨d, rest, rfl, hws⟩, -⟩ := contCaptures_inv hcont
    have hdz : d ≠ 'Z' := by
      intro he
      rw [he] at hws
      exact absurd hws (by decide)
    have hzf : Zone.from_str (d :: rest) = .fail :=
      zone_fail_of_captures_none (zoneCaptures_none_of_head hdz)
    unfold Line.from_str
    rw [hemp]
    simp only [Bool.false_eq_true, if_false]
    rw [hzf, hcont]
  · intro s r h
    have hc : ∃ c, ruleCaptures s = some c := by
      unfold Rule.from_str at h
      rcases hrc : ruleCaptures s with _ | c
      · rw [hrc] at h
        simp at h
      · exact ⟨c, rfl⟩
    obtain ⟨c, hc⟩ := hc
    obtain ⟨d, rest, rfl, hws⟩ := ruleCaptures_inv hc
    have hemp : emptyLineMatch ('R' :: 'u' :: 'l' :: 'e' :: d :: rest) = false :=
      emptyLineMatch_cons_false (by decide) (by decide)
    have hzf : Zone.from_str ('R' :: 'u' :: 'l' :: 'e' :: d :: rest) = .fail :=
      zone_fail_of_captures_none (zoneCaptures_none_of_head (by decide))
    have hcn : contCaptures ('R' :: 'u' :: 'l' :: 'e' :: d :: rest) = none :=
      contCaptures_none_of_head (by decide)
    unfold Line.from_str
    rw [hemp]
    simp only [Bool.false_eq_true, if_false]
    rw [hzf, hcn, h]
  · intro s l h
    have hc : ∃ c, linkCaptures s = some c := by
      unfold Link.from_str at h
      rcases hlc : linkCaptures s with _ | c
      · rw [hlc] at h
        simp at h
      · exact ⟨c, rfl⟩
    obtain ⟨c, hc⟩ := hc
    obtain ⟨d, rest, rfl, hws⟩ := linkCaptures_inv hc
    have hemp : emptyLineMatch ('L' :: 'i' :: 'n' :: 'k' :: d :: rest) = false :=
      emptyLineMatch_cons_false (by decide) (by decide)
    have hzf : Zone.from_str ('L' :: 'i' :: 'n' :: 'k' :: d :: rest) = .fail :=
      zone_fail_of_captures_none (zoneCaptures_none_of_head (by decide))
    have hcn : contCaptures ('L' :: 'i' :: 'n' :: 'k' :: d :: rest) = none :=
      contCaptures_none_of_head (by decide)
    have hrf : Rule.from_str ('L' :: 'i' :: 'n' :: 'k' :: d :: rest) = .fail :=
      rule_fail_of_captures_none (ruleCaptures_none_of_head (by decide))
    unfold Line.from_str
    rw [hemp]
    simp only [Bool.false_eq_true, if_false]
    rw [hzf, hcn, hrf, h]
  · intro s c h
    obtain ⟨⟨d, rest, rfl, -⟩, -⟩ := zoneCaptures_inv h
    exact contCaptures_none_of_head (by decide)

/-- Witness for C8: a minimal zone line is classified as Zone. -/
theorem claim8_classifier_order_witness :
    Line.from_str ("Zone A/B 9:30 - LMT").data =
      .ok (.Zone ⟨"A/B".data, ⟨.HoursMinutes 9 30, .NoSaving, "LMT".data, none⟩⟩) :=
  claim8_classifier_order.2.1 _ _ (by decide)

/-- C9: every string consisting solely of whitespace, or of whitespace
followed by a single `#`-introduced comment running to the end of the
line (the comment may itself contain further `#` characters, but no
newline — `.` does not match a newline), is classified as Space; and a
string whose first non-whitespace character is not `#` is never
classified as Space. -/
theorem claim9_blank_line :
    (∀ w, w.all isWs = true → Line.from_str w = .ok .Space) ∧
    (∀ w c, w.all isWs = true → c.contains '\n' = false →
      Line.from_str (w ++ '#' :: c) = .ok .Space) ∧
    (∀ s, s.dropWhile isWs ≠ [] → (s.dropWhile isWs).head? ≠ some '#' →
      Line.from_str s ≠ .ok .Space) := by
  refine ⟨?_, ?_, ?_⟩
  · intro w hw
    have hemp : emptyLineMatch w = true := by
      unfold emptyLineMatch
      rw [List.dropWhile_eq_nil_iff.mpr (fun x hx => List.all_eq_true.mp hw x hx)]
    unfold Line.from_str
    rw [if_pos hemp]
  · intro w c hw hc
    have hemp : emptyLineMatch (w ++ '#' :: c) = true := by
      unfold emptyLineMatch
      rw [dropWhile_append_all hw, List.dropWhile_cons, if_neg (by decide)]
      show (!c.contains '\n') = true
      rw [hc]
      rfl
    unfold Line.from_str
    rw [if_pos hemp]
  · intro s h1 h2 hline
    have hemp : emptyLineMatch s = false := by
      unfold emptyLineMatch
      rcases hd : s.dropWhile isWs with _ | ⟨a, t⟩
      · exact absurd hd h1
      · rw [hd] at h2
        split
        · rename_i heq
          exact absurd heq (by simp)
        · rename_i r2 heq
          injection heq with e1 e2
          rw [e1] at h2
          exact absurd rfl h2
        · rfl
    unfold Line.from_str at hline
    rw [hemp] at hline
    simp only [Bool.false_eq_true, if_false] at hline
    rcases hz : Zone.from_str s with z | _ | _ <;> rw [hz] at hline
    · simp at hline
    · rcases hcc : contCaptures s with _ | c <;> rw [hcc] at hline
      · rcases hr : Rule.from_str s with r | _ | _ <;> rw [hr] at hline
        · simp at hline
        · rcases hl : Link.from_str s with l | _ | _ <;> rw [hl] at hline
          · simp at hline
          · simp at hline
          · simp at hline
        · simp at hline
      · obtain ⟨zi, hzi, hline⟩ := PResult.do_bind_eq_ok hline
        exact Line.noConfusion (PResult.ok.inj hline)
    · simp at hline

/-- Witness for C9: whitespace followed by a comment containing more
`#` characters is Space. -/
theorem claim9_blank_line_witness :
    Line.from_str (("  ").data ++ '#' :: (" so is this ## ").data) = .ok .Space :=
  claim9_blank_line.2.1 ("  ").data (" so is this ## ").data (by decide) (by decide)

end Zoneinfo
